import Mathlib

/-!
Verification of the Logger repository's Correlation & Scoring Pipeline.

This development gives a shallow embedding, in Lean 4, of the core
Correlation & Scoring Pipeline of the `Logger` repository
(`src/evaluator/correlation-engine.js`, `src/evaluator/scoring-engine.js`,
`src/background-analyzer.js`) and proves or refutes the frozen claims
about it.

Modelling conventions:
* JavaScript numbers are modelled by `ℚ` where the code can only produce
  finite values, and by `JsNum` (which has `nan` and the two infinities)
  where `NaN` can arise (division by zero, `Math.round(NaN)`).
* Timestamps (millisecond values obtained via `new Date(ts).getTime()`)
  are modelled as integers `ℤ`.
* JavaScript string splitting on `/\s+/` is modelled by `jsSplitWs`,
  reproducing the JS semantics in which `"".split(/\s+/)` is `[""]` and a
  leading/trailing separator run produces an empty token.
* The regular-expression tests of the rule-based fallbacks are not
  re-implemented; each analyzer takes the pattern-matching step as an
  explicit function argument (`matcher`), since no claim depends on which
  concrete strings match which pattern.  Everything else in the rule-based
  fallbacks (type priority, severities, quality bonuses, `parseError` and
  `fallback` flags) is embedded from the source.
* The external text-judgment capability is modelled at two levels.  The
  generic analyzer theorems use an oracle `judge : String → JudgeOutcome`:
  `callFailure` for an axios error or timeout, and `response r` for the
  record produced by `parseResponse` on the response text.  The
  `parseResponse` validation of each analyzer's prompt module
  (critical-thinking and mistake-catcher in
  `src/evaluator/prompts/mistake-catcher-prompt.js`, debugging-reasoning
  concatenated in `src/evaluator/profile-generator.js`) is embedded from
  the source; only its first step — the `/\x7b[\s\S]*\x7d/` JSON
  extraction plus `JSON.parse` — is abstracted as an oracle outcome
  (`failure reason` or the parsed object's fields), since every response
  text induces exactly one such outcome.
-/

/-- JavaScript floating-point numbers, abstracted: either a finite value
(modelled exactly by a rational), one of the infinities, or `NaN`. -/
inductive JsNum where
  | nan : JsNum
  | inf : JsNum
  | ninf : JsNum
  | fin : ℚ → JsNum
deriving DecidableEq, Repr

/-- JavaScript division of two finite numbers: `0/0` is `NaN`, `x/0` for
`x ≠ 0` is a signed infinity, otherwise exact division. -/
def jsDivQ (a b : ℚ) : JsNum :=
  if b = 0 then
    if a = 0 then .nan else if 0 < a then .inf else .ninf
  else .fin (a / b)

/-- JavaScript multiplication on `JsNum` (`NaN` is absorbing;
`±∞ * 0 = NaN`). -/
def jsMul : JsNum → JsNum → JsNum
  | .nan, _ => .nan
  | _, .nan => .nan
  | .fin a, .fin b => .fin (a * b)
  | .inf, .fin b => if b = 0 then .nan else if 0 < b then .inf else .ninf
  | .fin b, .inf => if b = 0 then .nan else if 0 < b then .inf else .ninf
  | .ninf, .fin b => if b = 0 then .nan else if 0 < b then .ninf else .inf
  | .fin b, .ninf => if b = 0 then .nan else if 0 < b then .ninf else .inf
  | .inf, .inf => .inf
  | .inf, .ninf => .ninf
  | .ninf, .inf => .ninf
  | .ninf, .ninf => .inf

/-- `Math.round` on a finite value: round half toward `+∞`. -/
def jsRound (q : ℚ) : ℤ := ⌊q + 1 / 2⌋

/-- `Math.round` as a finite rational result. -/
def jsRoundQ (q : ℚ) : ℚ := (jsRound q : ℚ)

/-- `Math.round` on `JsNum`: `Math.round(NaN)` is `NaN`, infinities are
kept. -/
def jsRoundN : JsNum → JsNum
  | .nan => .nan
  | .inf => .inf
  | .ninf => .ninf
  | .fin q => .fin (jsRoundQ q)

/-- Strict `>` comparison of a `JsNum` against a finite constant, with the
JS semantics that any comparison against `NaN` is false. -/
def jsGtQ : JsNum → ℚ → Bool
  | .nan, _ => false
  | .inf, _ => true
  | .ninf, _ => false
  | .fin a, c => decide (c < a)

/-- Whitespace characters recognised by the JS `\s` class (the ASCII
ones, which are the only ones the pipeline's inputs use). -/
def isWsChar (c : Char) : Bool :=
  c = ' ' || c = '\t' || c = '\n' || c = '\r' || c = '\x0b' || c = '\x0c'

mutual
/-- Helper for `jsSplitWs`: read characters of the current token. -/
def jsSplitWsGo : List Char → List Char → List (List Char)
  | [], cur => [cur.reverse]
  | c :: rest, cur =>
    if isWsChar c then cur.reverse :: jsSplitWsSep rest
    else jsSplitWsGo rest (c :: cur)

/-- Helper for `jsSplitWs`: consume the rest of a separator run. -/
def jsSplitWsSep : List Char → List (List Char)
  | [] => [[]]
  | c :: rest =>
    if isWsChar c then jsSplitWsSep rest
    else jsSplitWsGo rest [c]
end

/-- JavaScript `str.split(/\s+/)`: split on maximal whitespace runs.
Note the JS quirks embedded faithfully: `"".split(/\s+/) = [""]`, and a
leading (resp. trailing) whitespace run contributes a leading (resp.
trailing) empty token. -/
def jsSplitWs (s : String) : List String :=
  (jsSplitWsGo s.toList []).map List.asString

/-- `CorrelationEngine.calculateSimilarity` (correlation-engine.js
283–291): Jaccard similarity of the two whitespace-token sets, as the
JS number `|∩| / |∪|`.  The `Set` deduplication is modelled by
`List.dedup`. -/
def calculateSimilarity (str1 str2 : String) : JsNum :=
  let set1 := (jsSplitWs str1).dedup
  let set2 := (jsSplitWs str2).dedup
  let intersection := set1.filter (fun x => set2.contains x)
  let union := (set1 ++ set2).dedup
  jsDivQ intersection.length union.length

/-- `jsSplitWsGo` never returns the empty list. -/
theorem jsSplitWsGo_ne_nil (l cur : List Char) : jsSplitWsGo l cur ≠ [] := by
  induction l generalizing cur with
  | nil => simp [jsSplitWsGo]
  | cons c rest ih =>
    simp only [jsSplitWsGo]
    split
    · simp
    · exact ih _

/-- JS `split` always yields at least one token. -/
theorem jsSplitWs_ne_nil (s : String) : jsSplitWs s ≠ [] := by
  simp [jsSplitWs, jsSplitWsGo_ne_nil]

/-- The token-set union in `calculateSimilarity` is never empty, so the
Jaccard division never has denominator zero and the result is always a
finite rational (never `NaN`, never an infinity). -/
theorem calculateSimilarity_fin (str1 str2 : String) :
    ∃ q : ℚ, calculateSimilarity str1 str2 = .fin q := by
  have hu : (((jsSplitWs str1).dedup ++ (jsSplitWs str2).dedup)).dedup ≠ [] := by
    simp only [ne_eq, List.dedup_eq_nil, List.append_eq_nil]
    intro h
    exact jsSplitWs_ne_nil str1 h.1
  have hlen : ((((jsSplitWs str1).dedup ++ (jsSplitWs str2).dedup)).dedup.length : ℚ) ≠ 0 := by
    simpa [List.length_eq_zero] using hu
  refine ⟨(((jsSplitWs str1).dedup.filter
      (fun x => (jsSplitWs str2).dedup.contains x)).length : ℚ) /
      ((((jsSplitWs str1).dedup ++ (jsSplitWs str2).dedup)).dedup.length : ℚ), ?_⟩
  simp only [calculateSimilarity, jsDivQ, if_neg hlen]

/-- Worker for `collapseWs`; the flag records whether the previous
character was part of a whitespace run already replaced by `' '`. -/
def collapseWsAux : Bool → List Char → List Char
  | _, [] => []
  | inRun, c :: rest =>
    if isWsChar c then
      if inRun then collapseWsAux true rest
      else ' ' :: collapseWsAux true rest
    else c :: collapseWsAux false rest

/-- `str.replace(/\s+/g, ' ')` on the character list: every maximal
whitespace run becomes a single space. -/
def collapseWs (l : List Char) : List Char :=
  collapseWsAux false l

/-- JS `String.prototype.trim`: strip leading and trailing whitespace. -/
def jsTrim (l : List Char) : List Char :=
  ((l.dropWhile isWsChar).reverse.dropWhile isWsChar).reverse

/-- The normalization used by `isSimilarCode`
(`str.replace(/\s+/g, ' ').trim()`). -/
def normalizeWs (s : String) : String :=
  (jsTrim (collapseWs s.toList)).asString

/-- `CorrelationEngine.isSimilarCode` (correlation-engine.js 265–278):
false when either string is empty (JS falsy); true on normalized
equality; otherwise true iff the Jaccard similarity of the normalized
strings exceeds 0.9. -/
def isSimilarCode (str1 str2 : String) : Bool :=
  if str1 = "" || str2 = "" then false
  else
    let normalized1 := normalizeWs str1
    let normalized2 := normalizeWs str2
    if normalized1 = normalized2 then true
    else jsGtQ (calculateSimilarity normalized1 normalized2) (9 / 10)

/-- One entry of a per-file edit history, as built by
`detectIterationPatterns` (correlation-engine.js 198–204). -/
structure HistEntry where
  prompt_id : ℕ
  prompt_text : String
  timestamp : ℤ
  old_string : String
  new_string : String
deriving DecidableEq, Repr

/-- One reversal record as pushed by `detectReversals`
(correlation-engine.js 250–255). -/
structure Reversal where
  index : ℕ
  prompt_reverted_from : String
  prompt_reverted_to : String
  explanation : String
deriving DecidableEq, Repr

/-- Loop body of `detectReversals`: compare each entry at position `i ≥ 1`
with its immediate predecessor. -/
def detectReversalsGo (prev : HistEntry) (i : ℕ) : List HistEntry → List Reversal
  | [] => []
  | curr :: rest =>
    (if isSimilarCode curr.new_string prev.old_string then
      [{ index := i
         prompt_reverted_from := prev.prompt_text
         prompt_reverted_to := curr.prompt_text
         explanation := "Code reverted to earlier state" }]
    else []) ++ detectReversalsGo curr (i + 1) rest

/-- `CorrelationEngine.detectReversals` (correlation-engine.js 241–260):
for each adjacent pair `(edit[i-1], edit[i])`, record a reversal at
index `i` when `edit[i].new_string` is similar to
`edit[i-1].old_string`. -/
def detectReversals : List HistEntry → List Reversal
  | [] => []
  | first :: rest => detectReversalsGo first 1 rest

example : calculateSimilarity "" "" = .fin 1 := by
  have h : (jsSplitWs "").dedup = [""] := by decide
  simp only [calculateSimilarity, h]
  norm_num [jsDivQ, List.filter, List.dedup]
example : calculateSimilarity "a b" "b c" = .fin (1 / 3) := by
  have h1 : (jsSplitWs "a b").dedup = ["a", "b"] := by decide
  have h2 : (jsSplitWs "b c").dedup = ["b", "c"] := by decide
  have hi : ((["a", "b"] : List String).filter
      (fun x => (["b", "c"] : List String).contains x)).length = 1 := by decide
  have hu : ((["a", "b"] ++ ["b", "c"] : List String)).dedup.length = 3 := by decide
  simp only [calculateSimilarity, h1, h2, hi, hu]
  norm_num [jsDivQ]
example : isSimilarCode "  foo   bar " "foo bar" = true := by decide
example : isSimilarCode "" "" = false := by decide

/-! ## Event data model (§3 of the spec; rows of the `prompts` and
`edits` tables as read by `getConversationData`). -/

/-- A Prompt event row. -/
structure Prompt where
  id : ℕ
  conversation_id : String
  prompt_text : String
  source : String
  timestamp : ℤ
  prompt_sequence_number : ℕ
  is_question : Bool
  is_debugging : Bool
deriving DecidableEq, Repr

/-- An Edit event row. -/
structure Edit where
  id : ℕ
  conversation_id : String
  file_path : String
  old_string : String
  new_string : String
  source : String
  timestamp : ℤ
deriving DecidableEq, Repr

/-- The conversation record assembled by
`CorrelationEngine.getConversationData` (correlation-engine.js 29–50):
prompts and edits of one conversation id, each ordered by timestamp by
the SQL query. -/
structure Conversation where
  conversation_id : String
  prompts : List Prompt
  edits : List Edit
  source : String
deriving Repr

/-- An element of a correlation's `related_edits`
(correlation-engine.js 89–96). -/
structure RelatedEdit where
  edit_id : ℕ
  file_path : String
  timestamp : ℤ
  old_string : String
  new_string : String
  time_after_prompt : ℤ
deriving DecidableEq, Repr

/-- The `stats` record of a correlation (correlation-engine.js 68–75,
100–124).  `none` models the JS `null` kept when there are no related
edits. -/
structure CorrelationStats where
  total_edits : ℕ
  files_changed : ℕ
  lines_added : ℕ
  lines_removed : ℕ
  time_to_first_edit : Option ℤ
  edit_duration : Option ℤ
deriving DecidableEq, Repr

/-- A Correlation record (correlation-engine.js 61–76). -/
structure Correlation where
  prompt_id : ℕ
  prompt_text : String
  prompt_timestamp : ℤ
  conversation_id : String
  source : String
  related_edits : List RelatedEdit
  stats : CorrelationStats
deriving DecidableEq, Repr

/-- `edit.old_string ? edit.old_string.split('\n').length : 0`
(correlation-engine.js 116–117): a JS falsy (empty) string contributes
0 lines, a non-empty string has one more line than it has newlines. -/
def jsLineCount (s : String) : ℕ :=
  if s = "" then 0 else s.toList.count '\n' + 1

/-- The time-window test of `correlatePromptsToEdits`
(correlation-engine.js 88): `editTime >= promptTime && editTime <
nextPromptTime`, where `next = none` models `Infinity` for the last
prompt. -/
def inWindowB (promptTime : ℤ) (next : Option ℤ) (t : ℤ) : Bool :=
  decide (promptTime ≤ t) &&
    (match next with
     | some u => decide (t < u)
     | none => true)

/-- The record pushed onto `related_edits` for an in-window edit
(correlation-engine.js 89–96). -/
def toRelatedEdit (promptTime : ℤ) (e : Edit) : RelatedEdit :=
  { edit_id := e.id
    file_path := e.file_path
    timestamp := e.timestamp
    old_string := e.old_string
    new_string := e.new_string
    time_after_prompt := e.timestamp - promptTime }

/-- Build the Correlation for one prompt (correlation-engine.js 61–127):
collect the in-window edits and compute the stats.  When there are no
related edits the computed stats coincide with the initial
`{0, 0, 0, 0, null, null}` record of the source, so the `length > 0`
guard of the source needs no separate branch. -/
def mkCorrelation (conversationId source : String) (edits : List Edit)
    (p : Prompt) (next : Option ℤ) : Correlation :=
  let promptTime := p.timestamp
  let related := (edits.filter (fun e => inWindowB promptTime next e.timestamp)).map
    (toRelatedEdit promptTime)
  let lines := related.foldl
    (fun (acc : ℕ × ℕ) e =>
      let oldLines := jsLineCount e.old_string
      let newLines := jsLineCount e.new_string
      if oldLines < newLines then (acc.1 + (newLines - oldLines), acc.2)
      else (acc.1, acc.2 + (oldLines - newLines)))
    (0, 0)
  { prompt_id := p.id
    prompt_text := p.prompt_text
    prompt_timestamp := p.timestamp
    conversation_id := conversationId
    source := source
    related_edits := related
    stats :=
      { total_edits := related.length
        files_changed := (related.map (·.file_path)).dedup.length
        lines_added := lines.1
        lines_removed := lines.2
        time_to_first_edit := related.head?.map (·.time_after_prompt)
        edit_duration := related.getLast?.map (·.time_after_prompt) } }

/-- The per-prompt loop of `correlatePromptsToEdits`: the next prompt's
timestamp (`prompts[promptIndex + 1]`) is the timestamp of the head of
the remaining prompts. -/
def correlateGo (conversationId source : String) (edits : List Edit) :
    List Prompt → List Correlation
  | [] => []
  | p :: rest =>
    mkCorrelation conversationId source edits p (rest.head?.map (·.timestamp)) ::
      correlateGo conversationId source edits rest

/-- `CorrelationEngine.correlatePromptsToEdits` (correlation-engine.js
55–132) restricted to one conversation; the source maps this over every
conversation and concatenates the results. -/
def correlatePromptsToEdits (conv : Conversation) : List Correlation :=
  correlateGo conv.conversation_id conv.source conv.edits conv.prompts

/-- Numeric value of JS `x.toFixed(2)` (which the source stores as a
string; only its numeric value is relevant to the claims). -/
def jsToFixed2 (q : ℚ) : ℚ := jsRoundQ (q * 100) / 100

/-- The record returned by `analyzeEffectiveness`
(correlation-engine.js 138–146).  `avg_edits_per_prompt` and
`avg_files_per_prompt` hold the numeric value of the `toFixed(2)`
result; `effectiveness_score` is a `JsNum` because its division is
unguarded in the source. -/
structure EffectivenessAnalysis where
  total_prompts : ℕ
  prompts_with_edits : ℕ
  prompts_without_edits : ℕ
  avg_edits_per_prompt : ℚ
  avg_files_per_prompt : ℚ
  avg_time_to_first_edit : ℤ
  effectiveness_score : JsNum
deriving DecidableEq, Repr

/-- `CorrelationEngine.analyzeEffectiveness` (correlation-engine.js
137–183).  The accumulation loop is expressed with list combinators:
`withEdits` collects the correlations with `related_edits.length > 0`,
`times` the non-null `time_to_first_edit` values among them. -/
def analyzeEffectiveness (correlations : List Correlation) : EffectivenessAnalysis :=
  let withEdits := correlations.filter (fun c => decide (0 < c.related_edits.length))
  let totalEdits := (withEdits.map (·.stats.total_edits)).sum
  let totalFiles := (withEdits.map (·.stats.files_changed)).sum
  let times := withEdits.filterMap (·.stats.time_to_first_edit)
  { total_prompts := correlations.length
    prompts_with_edits := withEdits.length
    prompts_without_edits :=
      (correlations.filter (fun c => decide (c.related_edits.length = 0))).length
    avg_edits_per_prompt :=
      if 0 < withEdits.length then jsToFixed2 ((totalEdits : ℚ) / (withEdits.length : ℚ))
      else 0
    avg_files_per_prompt :=
      if 0 < withEdits.length then jsToFixed2 ((totalFiles : ℚ) / (withEdits.length : ℚ))
      else 0
    avg_time_to_first_edit :=
      if 0 < times.length then jsRound ((times.sum : ℚ) / (times.length : ℚ)) else 0
    effectiveness_score :=
      jsRoundN (jsMul (jsDivQ (withEdits.length : ℚ) (correlations.length : ℚ)) (.fin 100)) }

/-- An edit's image can only appear among a correlation's related edits
if the edit's timestamp lies in the correlation's prompt window. -/
theorem window_of_mem_related (cid src : String) (edits : List Edit)
    (p : Prompt) (next : Option ℤ) (e : Edit)
    (hmem : toRelatedEdit p.timestamp e ∈
      (mkCorrelation cid src edits p next).related_edits) :
    inWindowB p.timestamp next e.timestamp = true := by
  simp only [mkCorrelation, List.mem_map, List.mem_filter] at hmem
  obtain ⟨e', ⟨_, hw⟩, heq⟩ := hmem
  have ht : e'.timestamp = e.timestamp := by
    have := congrArg RelatedEdit.timestamp heq
    simpa [toRelatedEdit] using this
  rwa [ht] at hw

/-- Conversely, an edit of the conversation whose timestamp lies in the
window does appear among the related edits. -/
theorem mem_related_of_window (cid src : String) (edits : List Edit)
    (p : Prompt) (next : Option ℤ) (e : Edit) (he : e ∈ edits)
    (hw : inWindowB p.timestamp next e.timestamp = true) :
    toRelatedEdit p.timestamp e ∈
      (mkCorrelation cid src edits p next).related_edits := by
  simp only [mkCorrelation, List.mem_map, List.mem_filter]
  exact ⟨e, ⟨he, hw⟩, rfl⟩

/-- The decidable "this correlation was assigned the edit `e`"
predicate. -/
def assignedTo (e : Edit) (c : Correlation) : Bool :=
  decide (toRelatedEdit c.prompt_timestamp e ∈ c.related_edits)

/-- If an edit's timestamp precedes every prompt of the list, no produced
correlation is assigned that edit. -/
theorem correlateGo_countP_zero (cid src : String) (edits : List Edit) (e : Edit)
    (prompts : List Prompt)
    (hall : ∀ p ∈ prompts, e.timestamp < p.timestamp) :
    ((correlateGo cid src edits prompts).countP (assignedTo e)) = 0 := by
  induction prompts with
  | nil => rfl
  | cons p rest ih =>
    simp only [correlateGo, List.countP_cons]
    have hp : e.timestamp < p.timestamp := hall p (by simp)
    have hpred : assignedTo e (mkCorrelation cid src edits p (rest.head?.map (·.timestamp))) = false := by
      simp only [assignedTo, decide_eq_false_iff_not]
      intro hmem
      have hw := window_of_mem_related cid src edits p _ e hmem
      simp only [inWindowB, Bool.and_eq_true, decide_eq_true_eq] at hw
      omega
    rw [hpred]
    simpa using ih (fun q hq => hall q (by simp [hq]))

/-- If the prompt list is sorted by timestamp and the edit's timestamp is
at or after the first prompt's, exactly one produced correlation is
assigned that edit. -/
theorem correlateGo_countP_one (cid src : String) (edits : List Edit) (e : Edit)
    (he : e ∈ edits) (p0 : Prompt) (rest : List Prompt)
    (hsorted : (p0 :: rest).Pairwise (fun a b => a.timestamp ≤ b.timestamp))
    (h0 : p0.timestamp ≤ e.timestamp) :
    ((correlateGo cid src edits (p0 :: rest)).countP (assignedTo e)) = 1 := by
  induction rest generalizing p0 with
  | nil =>
    simp only [correlateGo, List.countP_cons, List.countP_nil]
    have hw : inWindowB p0.timestamp none e.timestamp = true := by
      simp [inWindowB, h0]
    have hmem := mem_related_of_window cid src edits p0 none e he
    simp only [List.head?_nil, Option.map_none'] at *
    have : assignedTo e (mkCorrelation cid src edits p0 none) = true := by
      simp only [assignedTo, decide_eq_true_eq]
      exact hmem hw
    simp [this]
  | cons q rest' ih =>
    have hsorted' : (q :: rest').Pairwise (fun a b => a.timestamp ≤ b.timestamp) :=
      hsorted.of_cons
    have hstep : correlateGo cid src edits (p0 :: q :: rest') =
        mkCorrelation cid src edits p0 (some q.timestamp) ::
          correlateGo cid src edits (q :: rest') := rfl
    rw [hstep, List.countP_cons]
    by_cases hq : e.timestamp < q.timestamp
    · -- the head window [p0, q) contains the edit; no later window can
      have hw : inWindowB p0.timestamp (some q.timestamp) e.timestamp = true := by
        simp [inWindowB, h0, hq]
      have hpred : assignedTo e (mkCorrelation cid src edits p0 (some q.timestamp)) = true := by
        simp only [assignedTo, decide_eq_true_eq]
        exact mem_related_of_window cid src edits p0 _ e he hw
      have hq' : ∀ p ∈ q :: rest', e.timestamp < p.timestamp := by
        intro p hp
        rcases List.mem_cons.mp hp with h | h
        · rw [h]; exact hq
        · have := (List.pairwise_cons.mp hsorted').1 p h
          omega
      have hz := correlateGo_countP_zero cid src edits e (q :: rest') hq'
      rw [hz, hpred]
      simp
    · -- the edit is at or after q: it belongs to a later window
      have hpred : assignedTo e (mkCorrelation cid src edits p0 (some q.timestamp)) = false := by
        simp only [assignedTo, decide_eq_false_iff_not]
        intro hmem
        have hw := window_of_mem_related cid src edits p0 _ e hmem
        simp only [inWindowB, Bool.and_eq_true, decide_eq_true_eq] at hw
        omega
      rw [ih q hsorted' (by omega), hpred]
      simp

/-- Every correlation produced by the per-conversation loop is
`mkCorrelation` of some prompt of the list. -/
theorem correlateGo_mem (cid src : String) (edits : List Edit) :
    ∀ (prompts : List Prompt) (c : Correlation), c ∈ correlateGo cid src edits prompts →
      ∃ p next, p ∈ prompts ∧ c = mkCorrelation cid src edits p next := by
  intro prompts
  induction prompts with
  | nil => intro c hc; simp [correlateGo] at hc
  | cons p rest ih =>
    intro c hc
    simp only [correlateGo, List.mem_cons] at hc
    rcases hc with h | h
    · exact ⟨p, _, by simp, h⟩
    · obtain ⟨p', n', hp', hc'⟩ := ih c h
      exact ⟨p', n', by simp [hp'], hc'⟩

/-- Every related edit of a correlation is at or after the prompt, and
its `time_after_prompt` is its timestamp minus the prompt's. -/
theorem mem_related_spec (cid src : String) (edits : List Edit) (p : Prompt)
    (next : Option ℤ) (r : RelatedEdit)
    (hr : r ∈ (mkCorrelation cid src edits p next).related_edits) :
    p.timestamp ≤ r.timestamp ∧ r.time_after_prompt = r.timestamp - p.timestamp := by
  simp only [mkCorrelation, List.mem_map, List.mem_filter] at hr
  obtain ⟨e, ⟨_, hw⟩, rfl⟩ := hr
  simp only [inWindowB, Bool.and_eq_true, decide_eq_true_eq] at hw
  refine ⟨hw.1, ?_⟩
  simp [toRelatedEdit]

/-- When the conversation's edits are sorted by timestamp, so are the
related edits of every correlation (both in raw timestamp and in
`time_after_prompt`). -/
theorem related_pairwise (cid src : String) (edits : List Edit) (p : Prompt) (next : Option ℤ)
    (hsorted : edits.Pairwise (fun a b => a.timestamp ≤ b.timestamp)) :
    (mkCorrelation cid src edits p next).related_edits.Pairwise
      (fun a b => a.timestamp ≤ b.timestamp ∧
        a.time_after_prompt ≤ b.time_after_prompt) := by
  simp only [mkCorrelation]
  refine List.Pairwise.map _ ?_ (hsorted.filter _)
  intro a b hab
  simp only [toRelatedEdit]
  omega

/-- In a list pairwise-sorted by `time_after_prompt`, the head is not
after the last element. -/
theorem pairwise_head?_le_getLast? {l : List RelatedEdit}
    (h : l.Pairwise (fun a b => a.time_after_prompt ≤ b.time_after_prompt))
    {x y : RelatedEdit} (hx : l.head? = some x) (hy : l.getLast? = some y) :
    x.time_after_prompt ≤ y.time_after_prompt := by
  cases l with
  | nil => simp at hx
  | cons z tail =>
    have hxz : x = z := by
      simp only [List.head?_cons, Option.some.injEq] at hx
      exact hx.symm
    have hymem : y ∈ z :: tail := List.mem_of_mem_getLast? hy
    rcases List.mem_cons.mp hymem with h1 | h1
    · simp [hxz, h1]
    · rw [hxz]
      exact (List.pairwise_cons.mp h).1 y h1

/-- Claim C1: For every conversation whose prompts are ordered by
timestamp, `correlatePromptsToEdits` assigns each edit whose timestamp
is at or after the first prompt's timestamp to exactly one correlation;
membership in a correlation's `related_edits` holds exactly when the
edit's timestamp lies in that prompt's half-open window
`[t_i, t_{i+1})` (closed on the left — an edit at `t_i` belongs to
prompt `i` and to no earlier prompt, whose window is open on the right);
and an edit strictly before the first prompt is assigned to no
correlation. -/
theorem correlatePromptsToEdits_partitions_edits
    (conv : Conversation) (p0 : Prompt) (rest : List Prompt)
    (hp : conv.prompts = p0 :: rest)
    (hsorted : conv.prompts.Pairwise (fun a b => a.timestamp ≤ b.timestamp))
    (e : Edit) (he : e ∈ conv.edits) :
    (∀ (p : Prompt) (next : Option ℤ),
        toRelatedEdit p.timestamp e ∈
            (mkCorrelation conv.conversation_id conv.source conv.edits p next).related_edits
          ↔ inWindowB p.timestamp next e.timestamp = true) ∧
    (p0.timestamp ≤ e.timestamp →
      (correlatePromptsToEdits conv).countP (assignedTo e) = 1) ∧
    (e.timestamp < p0.timestamp →
      (correlatePromptsToEdits conv).countP (assignedTo e) = 0) := by
  rw [hp] at hsorted
  refine ⟨?_, ?_, ?_⟩
  · intro p next
    exact ⟨window_of_mem_related _ _ _ p next e,
      mem_related_of_window _ _ _ p next e he⟩
  · intro h0
    rw [correlatePromptsToEdits, hp]
    exact correlateGo_countP_one _ _ _ _ he p0 rest hsorted h0
  · intro h0
    rw [correlatePromptsToEdits, hp]
    apply correlateGo_countP_zero
    intro p hpmem
    rcases List.mem_cons.mp hpmem with h1 | h1
    · rw [h1]; exact h0
    · have := (List.pairwise_cons.mp hsorted).1 p h1
      omega

/-- Witness conversation for the partition theorem: two prompts at
times 100 and 200, edits at times 50 (orphaned), 100 (tie-break) and
250 (last window). -/
def witnessConv : Conversation :=
  { conversation_id := "conv-1"
    prompts :=
      [{ id := 1, conversation_id := "conv-1", prompt_text := "add a parser for the config file",
         source := "cursor", timestamp := 100, prompt_sequence_number := 1,
         is_question := false, is_debugging := false },
       { id := 2, conversation_id := "conv-1", prompt_text := "now handle the missing-file case",
         source := "cursor", timestamp := 200, prompt_sequence_number := 2,
         is_question := false, is_debugging := false }]
    edits :=
      [{ id := 11, conversation_id := "conv-1", file_path := "config.js",
         old_string := "", new_string := "let a", source := "cursor", timestamp := 50 },
       { id := 12, conversation_id := "conv-1", file_path := "config.js",
         old_string := "let a", new_string := "let b", source := "cursor", timestamp := 100 },
       { id := 13, conversation_id := "conv-1", file_path := "config.js",
         old_string := "let b", new_string := "let c", source := "cursor", timestamp := 250 }]
    source := "cursor" }

/-- Witness for C1: in `witnessConv`, the tie-break edit at time 100 is
assigned to exactly one correlation, and the orphan edit at time 50 to
none. -/
theorem correlatePromptsToEdits_partitions_edits_witness :
    (correlatePromptsToEdits witnessConv).countP
        (assignedTo (witnessConv.edits.get ⟨1, by decide⟩)) = 1 ∧
    (correlatePromptsToEdits witnessConv).countP
        (assignedTo (witnessConv.edits.get ⟨0, by decide⟩)) = 0 := by
  constructor
  · exact (correlatePromptsToEdits_partitions_edits witnessConv
      (witnessConv.prompts.get ⟨0, by decide⟩)
      [witnessConv.prompts.get ⟨1, by decide⟩] rfl (by decide)
      (witnessConv.edits.get ⟨1, by decide⟩) (by decide)).2.1 (by decide)
  · exact (correlatePromptsToEdits_partitions_edits witnessConv
      (witnessConv.prompts.get ⟨0, by decide⟩)
      [witnessConv.prompts.get ⟨1, by decide⟩] rfl (by decide)
      (witnessConv.edits.get ⟨0, by decide⟩) (by decide)).2.2 (by decide)

/-- Claim C10: When the conversation's edits are ordered by timestamp,
every correlation with at least one related edit lists its related
edits in non-decreasing timestamp order, has a non-negative
`time_to_first_edit`, and an `edit_duration` at least as large as
`time_to_first_edit`. -/
theorem correlation_related_edits_ordered
    (conv : Conversation)
    (hsorted : conv.edits.Pairwise (fun a b => a.timestamp ≤ b.timestamp))
    (c : Correlation) (hc : c ∈ correlatePromptsToEdits conv)
    (hne : c.related_edits ≠ []) :
    c.related_edits.Pairwise (fun a b => a.timestamp ≤ b.timestamp) ∧
    ∃ a b : ℤ, c.stats.time_to_first_edit = some a ∧
      c.stats.edit_duration = some b ∧ 0 ≤ a ∧ a ≤ b := by
  obtain ⟨p, next, _, rfl⟩ := correlateGo_mem conv.conversation_id conv.source conv.edits
    conv.prompts c hc
  have hpw := related_pairwise conv.conversation_id conv.source conv.edits p next hsorted
  refine ⟨hpw.imp (fun h => h.1), ?_⟩
  obtain ⟨x, hx⟩ : ∃ x, (mkCorrelation conv.conversation_id conv.source conv.edits
      p next).related_edits.head? = some x := by
    cases h : (mkCorrelation conv.conversation_id conv.source conv.edits
        p next).related_edits with
    | nil => exact absurd h hne
    | cons z tail => exact ⟨z, by simp⟩
  obtain ⟨y, hy⟩ : ∃ y, (mkCorrelation conv.conversation_id conv.source conv.edits
      p next).related_edits.getLast? = some y := by
    cases h : (mkCorrelation conv.conversation_id conv.source conv.edits
        p next).related_edits with
    | nil => exact absurd h hne
    | cons z tail => exact ⟨(z :: tail).getLast (by simp), List.getLast?_eq_getLast _ _⟩
  have hxmem := List.mem_of_mem_head? hx
  have hxspec := mem_related_spec conv.conversation_id conv.source conv.edits p next x hxmem
  have hstats_t : (mkCorrelation conv.conversation_id conv.source conv.edits
      p next).stats.time_to_first_edit = some x.time_after_prompt := by
    simp only [mkCorrelation] at hx ⊢
    rw [hx]
    rfl
  have hstats_d : (mkCorrelation conv.conversation_id conv.source conv.edits
      p next).stats.edit_duration = some y.time_after_prompt := by
    simp only [mkCorrelation] at hy ⊢
    rw [hy]
    rfl
  refine ⟨x.time_after_prompt, y.time_after_prompt, hstats_t, hstats_d, by omega, ?_⟩
  exact pairwise_head?_le_getLast? (hpw.imp (fun h => h.2)) hx hy

/-- Witness for C10 at the concrete `witnessConv`. -/
theorem correlation_related_edits_ordered_witness :
    ∃ c, c ∈ correlatePromptsToEdits witnessConv ∧
      (c.related_edits.Pairwise (fun a b => a.timestamp ≤ b.timestamp) ∧
        ∃ a b : ℤ, c.stats.time_to_first_edit = some a ∧
          c.stats.edit_duration = some b ∧ 0 ≤ a ∧ a ≤ b) :=
  ⟨(correlatePromptsToEdits witnessConv).get ⟨0, by decide⟩, by decide,
    correlation_related_edits_ordered witnessConv (by decide)
      ((correlatePromptsToEdits witnessConv).get ⟨0, by decide⟩)
      (by decide) (by decide)⟩

/-- Claim C4, counterexample: `calculateSimilarity("", "")` is `1`, not
`0`: in JS, `"".split(/\s+/)` is `[""]`, so both token sets are
`{""}` and the Jaccard ratio is `1/1`. -/
theorem calculateSimilarity_empty_empty_ne_zero :
    calculateSimilarity "" "" ≠ JsNum.fin 0 ∧
      calculateSimilarity "" "" = JsNum.fin 1 := by
  have h : (jsSplitWs "").dedup = [""] := by decide
  have hv : calculateSimilarity "" "" = JsNum.fin 1 := by
    simp only [calculateSimilarity, h]
    norm_num [jsDivQ, List.filter, List.dedup]
  refine ⟨?_, hv⟩
  rw [hv]
  simp only [ne_eq, JsNum.fin.injEq]
  norm_num

/-- Claim C4, amended: `calculateSimilarity` never divides by zero and
never yields `NaN` (the union of the token sets always holds at least
one token, because JS `split` never returns an empty array), and on two
empty strings it returns `1` (both token sets are `{""}`), not `0`. -/
theorem calculateSimilarity_never_nan_and_empty_empty_one :
    (∀ str1 str2 : String, ∃ q : ℚ, calculateSimilarity str1 str2 = JsNum.fin q) ∧
      calculateSimilarity "" "" = JsNum.fin 1 := by
  refine ⟨calculateSimilarity_fin, ?_⟩
  have h : (jsSplitWs "").dedup = [""] := by decide
  simp only [calculateSimilarity, h]
  norm_num [jsDivQ, List.filter, List.dedup]

/-- Claim C5: On an empty correlation list, `analyzeEffectiveness`
divides zero by zero: `effectiveness_score` is
`Math.round((0/0)*100) = NaN`, not `0`.  Every other field of the
returned record is `0`. -/
theorem analyzeEffectiveness_empty_effectiveness_nan :
    analyzeEffectiveness [] =
      { total_prompts := 0
        prompts_with_edits := 0
        prompts_without_edits := 0
        avg_edits_per_prompt := 0
        avg_files_per_prompt := 0
        avg_time_to_first_edit := 0
        effectiveness_score := JsNum.nan } := by
  norm_num [analyzeEffectiveness, jsDivQ, jsMul, jsRoundN]

/-- Claim C7, counterexample: An adjacent exact match through the *empty*
string is not reported: with `edit[1].new_string = edit[0].old_string
= ""`, `isSimilarCode` returns false on the JS-falsy empty string, so
`detectReversals` returns no reversal instead of one at index 1. -/
theorem detectReversals_empty_exact_match_missed :
    (let e0 : HistEntry :=
      { prompt_id := 1, prompt_text := "create the file", timestamp := 100,
        old_string := "", new_string := "let x = 1" }
    let e1 : HistEntry :=
      { prompt_id := 2, prompt_text := "undo that", timestamp := 200,
        old_string := "let x = 1", new_string := "" }
    e1.new_string = e0.old_string ∧ detectReversals [e0, e1] = []) := by
  constructor
  · rfl
  · decide

/-- `isSimilarCode` is true on two copies of a non-empty string. -/
theorem isSimilarCode_self (s : String) (hs : s ≠ "") :
    isSimilarCode s s = true := by
  simp [isSimilarCode, hs]

/-- Claim C7, amended: For a two-edit history in which
`edit[1].new_string` equals `edit[0].old_string` exactly and that string
is non-empty, `detectReversals` returns exactly one reversal, at
index 1 (adjacent-pair comparison: `edit[i]` is a reversal iff its new
content is similar to `edit[i-1]`'s old content; the JS code treats the
empty string as falsy and never reports it as similar). -/
theorem detectReversals_pair_exact_nonempty (e0 e1 : HistEntry)
    (hexact : e1.new_string = e0.old_string) (hne : e0.old_string ≠ "") :
    detectReversals [e0, e1] =
      [{ index := 1
         prompt_reverted_from := e0.prompt_text
         prompt_reverted_to := e1.prompt_text
         explanation := "Code reverted to earlier state" }] := by
  have hsim : isSimilarCode e1.new_string e0.old_string = true := by
    rw [hexact]
    exact isSimilarCode_self _ hne
  simp [detectReversals, detectReversalsGo, hsim]

/-- Witness for the amended C7 at a concrete two-edit history. -/
theorem detectReversals_pair_exact_nonempty_witness :
    detectReversals
        [{ prompt_id := 1, prompt_text := "rename the helper", timestamp := 100,
           old_string := "const add = 1", new_string := "const plus = 1" },
         { prompt_id := 2, prompt_text := "change it back", timestamp := 200,
           old_string := "const plus = 1", new_string := "const add = 1" }] =
      [{ index := 1
         prompt_reverted_from := "rename the helper"
         prompt_reverted_to := "change it back"
         explanation := "Code reverted to earlier state" }] :=
  detectReversals_pair_exact_nonempty _ _ rfl (by decide)

/-! ## Result storage (`background-analyzer.js`) -/

/-- A row of the `analysis_results` table (background-analyzer.js
47–58), without the autoincrement surrogate id, which no query of the
component reads.  The table carries
`UNIQUE(conversation_id, analyzer_name)`. -/
structure AnalysisResultRow where
  conversation_id : String
  analyzer_name : String
  score : ℚ
  verdict : String
  confidence : Option ℚ
  analysis_data : String
  analyzed_at : String
deriving DecidableEq, Repr

/-- The `(conversation_id, analyzer_name)` key match (string equality;
JS `==`/SQLite `TEXT` comparison is plain equality). -/
def sameKey (cid name : String) (r : AnalysisResultRow) : Bool :=
  decide (r.conversation_id = cid) && decide (r.analyzer_name = name)

/-- `BackgroundAnalyzer.storeResult` (background-analyzer.js 187–203):
`INSERT OR REPLACE` under the `UNIQUE(conversation_id, analyzer_name)`
constraint deletes any row conflicting on the key and appends the new
row. -/
def storeResult (table : List AnalysisResultRow) (row : AnalysisResultRow) :
    List AnalysisResultRow :=
  table.filter (fun r => !(sameKey row.conversation_id row.analyzer_name r)) ++ [row]

/-- Claim C8: Storing a per-analyzer result is an upsert keyed by
`(conversation id, analyzer name)`: after any sequence of stores into an
initially empty table, the rows matching a key are exactly the last
store for that key (so there is at most one row per key, its contents
equal the most recent store, and re-analysis is idempotent —
last write wins). -/
theorem storeResult_last_write_wins (stores : List AnalysisResultRow)
    (cid name : String) :
    (stores.foldl storeResult []).filter (sameKey cid name) =
      (match (stores.filter (sameKey cid name)).getLast? with
       | some r => [r]
       | none => []) := by
  induction stores using List.reverseRecOn with
  | nil => rfl
  | append_singleton init s ih =>
    rw [List.foldl_append, List.foldl_cons, List.foldl_nil, List.filter_append]
    by_cases hs : sameKey cid name s = true
    · have hsk : s.conversation_id = cid ∧ s.analyzer_name = name := by
        simpa [sameKey] using hs
      have hfil : List.filter (sameKey cid name) [s] = [s] := by
        simp [hs]
      rw [hfil, List.getLast?_concat]
      -- the new row deletes every old row with its own key, which is the
      -- queried key
      have hdrop : ((init.foldl storeResult []).filter
          (fun r => !(sameKey s.conversation_id s.analyzer_name r))).filter
            (sameKey cid name) = [] := by
        rw [List.filter_filter]
        have : ∀ a : AnalysisResultRow,
            (sameKey cid name a && !(sameKey s.conversation_id s.analyzer_name a)) = false := by
          intro a
          by_cases ha : sameKey cid name a = true
          · have hak : a.conversation_id = cid ∧ a.analyzer_name = name := by
              simpa [sameKey] using ha
            simp [sameKey, ha, hak.1, hak.2, hsk.1, hsk.2]
          · simp [Bool.not_eq_true] at ha
            simp [ha]
        rw [List.filter_congr (fun a _ => this a), List.filter_false]
      rw [storeResult, List.filter_append, hdrop, hfil, List.nil_append]
    · have hs' : sameKey cid name s = false := by
        simpa [Bool.not_eq_true] using hs
      have hfil : List.filter (sameKey cid name) [s] = [] := by
        simp [hs']
      rw [hfil, List.append_nil]
      -- the stored row has a different key: the queried key's rows are
      -- untouched
      have hsame : ((init.foldl storeResult []).filter
          (fun r => !(sameKey s.conversation_id s.analyzer_name r))).filter
            (sameKey cid name) =
          (init.foldl storeResult []).filter (sameKey cid name) := by
        rw [List.filter_filter]
        apply List.filter_congr
        intro a _
        by_cases ha : sameKey cid name a = true
        · have hak : a.conversation_id = cid ∧ a.analyzer_name = name := by
            simpa [sameKey] using ha
          have hdel : sameKey s.conversation_id s.analyzer_name a = false := by
            by_contra hcon
            simp only [Bool.not_eq_false] at hcon
            have : a.conversation_id = s.conversation_id ∧
                a.analyzer_name = s.analyzer_name := by
              simpa [sameKey] using hcon
            have : sameKey cid name s = true := by
              simp [sameKey, ← this.1, ← this.2, hak.1, hak.2]
            exact hs this
          simp [ha, hdel]
        · simp [Bool.not_eq_true] at ha
          simp [ha]
      rw [storeResult, List.filter_append, hsame, hfil, List.append_nil]
      exact ih

/-! ## Understanding analyzers (scoring-engine.js)

The three analyzers (critical-thinking 634–937, mistake-catching
943–1251, debugging-reasoning 1257–1589) share one per-prompt state
machine.  The external judgment capability is an oracle; each prompt
module's `parseResponse` validation is embedded from the source further
below, with only its JSON-extraction step abstracted; the regex-pattern
step of each rule-based fallback is a function argument (see the file
header). -/

/-- JS `String.prototype.includes` (substring test). -/
def containsSubstr (s pat : String) : Bool :=
  decide (pat.toList <:+: s.toList)

/-- The five critical-thinking pattern groups of
`CriticalThinkingAnalyzer.ruleBasedAnalysis` (scoring-engine.js
791–817), in source iteration order. -/
inductive CTType where
  | tradeoff | security | edge_case | architecture | questioning_ai
deriving DecidableEq, Repr

/-- The JS key string of each pattern group. -/
def CTType.name : CTType → String
  | .tradeoff => "tradeoff"
  | .security => "security"
  | .edge_case => "edge_case"
  | .architecture => "architecture"
  | .questioning_ai => "questioning_ai"

/-- The record shape produced by the critical-thinking `parseResponse`
(prompts/mistake-catcher-prompt.js 169–204 of the concatenated sources,
embedded below as `ctParseResponse`) and by `ruleBasedAnalysis`
(scoring-engine.js 844–855); a response in which no JSON could be found
or parsed carries `parseError := true`. -/
structure CTParsed where
  isCriticalThinking : Bool
  type : String
  qualityScore : ℚ
  evidence : String
  reasoning : String
  parseError : Bool
  fallback : Bool
deriving Repr

/-- Outcome of one external judgment attempt for the critical-thinking
analyzer: the `axios.post` call fails (error or 15 s timeout), or it
returns and `parseResponse` yields a `CTParsed`. -/
inductive CTJudge where
  | callFailure : CTJudge
  | response : CTParsed → CTJudge

/-- `CriticalThinkingAnalyzer.ruleBasedAnalysis` (scoring-engine.js
790–855) with the regex-pattern step abstracted as `matcher` (the first
matching pattern group, or none). -/
def ctRuleBasedAnalysis (matcher : String → Option CTType) (text : String) : CTParsed :=
  match matcher text with
  | none =>
    { isCriticalThinking := false
      type := "none"
      qualityScore := 0
      evidence := "none"
      reasoning := "No critical thinking patterns detected"
      parseError := false
      fallback := true }
  | some t =>
    let q1 : ℚ := 5 +
      (if containsSubstr text "trade-off" || containsSubstr text "tradeoff" then 2 else 0)
    let q2 := q1 +
      (if containsSubstr text "security" || containsSubstr text "performance" then 1 else 0)
    let q3 := q2 +
      (if containsSubstr text "instead of" || containsSubstr text "rather than" then 1 else 0)
    let q4 := q3 + (if 100 < text.length then 1 else 0)
    { isCriticalThinking := true
      type := t.name
      qualityScore := min 10 q4
      evidence := "Matched regex pattern"
      reasoning := "Rule-based: matched " ++ t.name ++ " pattern"
      parseError := false
      fallback := true }

/-- `CriticalThinkingAnalyzer.analyzePromptWithAI` (scoring-engine.js
765–784): on call failure fall back to the rule-based analysis
(which reports `parseError := false`). -/
def ctAnalyzePromptWithAI (judge : String → CTJudge) (matcher : String → Option CTType)
    (text : String) : CTParsed :=
  match judge text with
  | .callFailure => ctRuleBasedAnalysis matcher text
  | .response r => r

/-- An element of the `analyses` array of
`analyzeAllPromptsWithAI` (scoring-engine.js 720–728). -/
structure CTEntry where
  text : String
  type : String
  qualityScore : ℚ
  evidence : String
  reasoning : String
  sequence : ℕ
deriving Repr

/-- The prompt loop of `analyzeAllPromptsWithAI` (scoring-engine.js
699–729): skip prompts shorter than 10 characters; judge the rest;
count `parseError` results as fallbacks and the others as AI successes;
keep the entries flagged as critical thinking.  Returns
`(analyses, aiSuccessCount, fallbackCount)`. -/
def ctLoop (judge : String → CTJudge) (matcher : String → Option CTType) :
    List Prompt → List CTEntry × ℕ × ℕ
  | [] => ([], 0, 0)
  | p :: rest =>
    if p.prompt_text.length < 10 then ctLoop judge matcher rest
    else
      let analysis := ctAnalyzePromptWithAI judge matcher p.prompt_text
      let acc := ctLoop judge matcher rest
      let aiSuccessCount := if analysis.parseError then acc.2.1 else acc.2.1 + 1
      let fallbackCount := if analysis.parseError then acc.2.2 + 1 else acc.2.2
      let analyses :=
        if analysis.isCriticalThinking then
          { text := p.prompt_text
            type := analysis.type
            qualityScore := analysis.qualityScore
            evidence := analysis.evidence
            reasoning := analysis.reasoning
            sequence := p.prompt_sequence_number } :: acc.1
        else acc.1
      (analyses, aiSuccessCount, fallbackCount)

/-- Increment the count of one key of a JS-object histogram
(`breakdown[a.type] = (breakdown[a.type] || 0) + 1`), preserving
insertion order. -/
def bumpBreakdown (key : String) : List (String × ℕ) → List (String × ℕ)
  | [] => [(key, 1)]
  | (k, n) :: rest =>
    if k = key then (k, n + 1) :: rest else (k, n) :: bumpBreakdown key rest

/-- Build the per-type histogram in iteration order. -/
def mkBreakdown (types : List String) : List (String × ℕ) :=
  types.foldl (fun b t => bumpBreakdown t b) []

/-- The `criticalQuestions` aggregate (scoring-engine.js 743–755; the
truncated `aiReasoning` display list re-projects the same entries and is
omitted). -/
structure CTQuestions where
  count : ℕ
  examples : List String
  quality : ℚ
  breakdown : List (String × ℕ)
deriving Repr

/-- The value returned by `analyzeAllPromptsWithAI`
(scoring-engine.js 742–759). -/
structure CTAIAnalysis where
  criticalQuestions : CTQuestions
  allAnalyses : List CTEntry
  method : String
  successRate : ℚ
deriving Repr

/-- `CriticalThinkingAnalyzer.analyzeAllPromptsWithAI`
(scoring-engine.js 698–760). -/
def ctAnalyzeAllPromptsWithAI (judge : String → CTJudge)
    (matcher : String → Option CTType) (prompts : List Prompt) : CTAIAnalysis :=
  let acc := ctLoop judge matcher prompts
  let analyses := acc.1
  let avgQuality : ℚ :=
    if 0 < analyses.length then
      (analyses.map (·.qualityScore)).sum / (analyses.length : ℚ)
    else 0
  { criticalQuestions :=
      { count := analyses.length
        examples := (analyses.take 5).map (·.text)
        quality := avgQuality
        breakdown := mkBreakdown (analyses.map (·.type)) }
    allAnalyses := analyses
    method := if acc.2.1 < acc.2.2 then "fallback" else "ai"
    successRate :=
      if 0 < prompts.length then (acc.2.1 : ℚ) / (prompts.length : ℚ) else 0 }

/-- `CriticalThinkingAnalyzer.calculateScoreFromAI`
(scoring-engine.js 861–889). -/
def ctCalculateScoreFromAI (aiAnalysis : CTAIAnalysis) : ℚ :=
  if aiAnalysis.allAnalyses.length = 0 then 0
  else
    let countScore : ℚ :=
      if 5 ≤ aiAnalysis.criticalQuestions.count then 4
      else if 3 ≤ aiAnalysis.criticalQuestions.count then 3
      else if 1 ≤ aiAnalysis.criticalQuestions.count then 2
      else 0
    let qualityScore := aiAnalysis.criticalQuestions.quality / 10 * 4
    let diversityScore : ℚ :=
      min 2 ((aiAnalysis.criticalQuestions.breakdown.length : ℚ) * (1 / 2))
    let totalScore := min 10 (countScore + qualityScore + diversityScore)
    jsRoundQ (totalScore * 10) / 10

/-- `CriticalThinkingAnalyzer.determineVerdict`
(scoring-engine.js 891–895). -/
def ctDetermineVerdict (score : ℚ) : String :=
  if 15 / 2 ≤ score then "understands"
  else if 5 ≤ score then "uncertain"
  else "copy-paste"

/-- `CriticalThinkingAnalyzer.calculateConfidenceFromAI`
(scoring-engine.js 900–930). -/
def ctCalculateConfidenceFromAI (aiAnalysis : CTAIAnalysis) : ℚ :=
  let c1 : ℚ := 3 / 10 +
    (if 5 ≤ aiAnalysis.criticalQuestions.count then 3 / 10
     else if 3 ≤ aiAnalysis.criticalQuestions.count then 2 / 10
     else if 1 ≤ aiAnalysis.criticalQuestions.count then 1 / 10
     else 0)
  let c2 := c1 +
    (if 3 ≤ aiAnalysis.criticalQuestions.breakdown.length then 2 / 10
     else if 2 ≤ aiAnalysis.criticalQuestions.breakdown.length then 1 / 10
     else 0)
  let c3 := c2 +
    (if 4 / 5 < aiAnalysis.successRate then 3 / 20
     else if 1 / 2 < aiAnalysis.successRate then 1 / 20
     else 0)
  min (19 / 20) (jsRoundQ (c3 * 100) / 100)

/-- The record returned by `CriticalThinkingAnalyzer.analyze`
(scoring-engine.js 642–679); the `error` string of the no-prompt early
return is omitted. -/
structure CTResult where
  score : ℚ
  confidence : ℚ
  verdict : String
  criticalQuestions : CTQuestions
  analysisMethod : String
  promptsAnalyzed : ℕ
  aiSuccessRate : ℚ
deriving Repr

/-- `CriticalThinkingAnalyzer.analyze` (scoring-engine.js 642–679). -/
def ctAnalyze (judge : String → CTJudge) (matcher : String → Option CTType)
    (prompts : List Prompt) : CTResult :=
  if prompts.length = 0 then
    { score := 0
      confidence := 0
      verdict := "uncertain"
      criticalQuestions := { count := 0, examples := [], quality := 0, breakdown := [] }
      analysisMethod := "none"
      promptsAnalyzed := 0
      aiSuccessRate := 0 }
  else
    let aiAnalysis := ctAnalyzeAllPromptsWithAI judge matcher prompts
    let score := ctCalculateScoreFromAI aiAnalysis
    { score := score
      confidence := ctCalculateConfidenceFromAI aiAnalysis
      verdict := ctDetermineVerdict score
      criticalQuestions := aiAnalysis.criticalQuestions
      analysisMethod := aiAnalysis.method
      promptsAnalyzed := prompts.length
      aiSuccessRate := aiAnalysis.successRate }

/-- The five mistake pattern groups of
`MistakeCatcherAnalyzer.ruleBasedAnalysis` (scoring-engine.js
1103–1127), in source iteration order. -/
inductive MKType where
  | security | bug | logic | edge_case | prevention
deriving DecidableEq, Repr

/-- The JS key string of each mistake pattern group. -/
def MKType.name : MKType → String
  | .security => "security"
  | .bug => "bug"
  | .logic => "logic"
  | .edge_case => "edge_case"
  | .prevention => "prevention"

/-- The record shape produced by the mistake-catcher `parseResponse`
(prompts/mistake-catcher-prompt.js 56–94, embedded below as
`mkParseResponse`) and by `ruleBasedAnalysis` (scoring-engine.js
1158–1169). -/
structure MKParsed where
  caughtMistake : Bool
  mistakeType : String
  severity : String
  qualityScore : ℚ
  evidence : String
  reasoning : String
  parseError : Bool
  fallback : Bool
deriving Repr

/-- Outcome of one external judgment attempt for the mistake-catcher
analyzer. -/
inductive MKJudge where
  | callFailure : MKJudge
  | response : MKParsed → MKJudge

/-- `MistakeCatcherAnalyzer.ruleBasedAnalysis` (scoring-engine.js
1102–1170): severity and quality score are keyed on the matched pattern
group (security → high/8, bug and logic → medium/7, edge_case and
prevention → low/6). -/
def mkRuleBasedAnalysis (matcher : String → Option MKType) (text : String) : MKParsed :=
  match matcher text with
  | none =>
    { caughtMistake := false
      mistakeType := "none"
      severity := "none"
      qualityScore := 0
      evidence := "none"
      reasoning := "No mistake-catching patterns detected"
      parseError := false
      fallback := true }
  | some t =>
    let sq : String × ℚ :=
      match t with
      | .security => ("high", 8)
      | .bug | .logic => ("medium", 7)
      | .edge_case | .prevention => ("low", 6)
    { caughtMistake := true
      mistakeType := t.name
      severity := sq.1
      qualityScore := sq.2
      evidence := "Matched regex pattern"
      reasoning := "Rule-based: matched " ++ t.name ++ " pattern"
      parseError := false
      fallback := true }

/-- `MistakeCatcherAnalyzer.analyzePromptWithAI`
(scoring-engine.js 1079–1097). -/
def mkAnalyzePromptWithAI (judge : String → MKJudge) (matcher : String → Option MKType)
    (text : String) : MKParsed :=
  match judge text with
  | .callFailure => mkRuleBasedAnalysis matcher text
  | .response r => r

/-- An element of the mistake-catcher `analyses` array
(scoring-engine.js 1026–1034). -/
structure MKEntry where
  text : String
  type : String
  severity : String
  qualityScore : ℚ
  evidence : String
  reasoning : String
  sequence : ℕ
deriving Repr

/-- The prompt loop of the mistake-catcher `analyzeAllPromptsWithAI`
(scoring-engine.js 1005–1036): same skeleton as the critical-thinking
loop, keeping the entries where a mistake was caught. -/
def mkLoop (judge : String → MKJudge) (matcher : String → Option MKType) :
    List Prompt → List MKEntry × ℕ × ℕ
  | [] => ([], 0, 0)
  | p :: rest =>
    if p.prompt_text.length < 10 then mkLoop judge matcher rest
    else
      let analysis := mkAnalyzePromptWithAI judge matcher p.prompt_text
      let acc := mkLoop judge matcher rest
      let aiSuccessCount := if analysis.parseError then acc.2.1 else acc.2.1 + 1
      let fallbackCount := if analysis.parseError then acc.2.2 + 1 else acc.2.2
      let analyses :=
        if analysis.caughtMistake then
          { text := p.prompt_text
            type := analysis.mistakeType
            severity := analysis.severity
            qualityScore := analysis.qualityScore
            evidence := analysis.evidence
            reasoning := analysis.reasoning
            sequence := p.prompt_sequence_number } :: acc.1
        else acc.1
      (analyses, aiSuccessCount, fallbackCount)

/-- The `mistakesCaught` aggregate (scoring-engine.js 1053–1069), with
its two histograms (`aiReasoning` omitted as for the other analyzers). -/
structure MKCaught where
  count : ℕ
  examples : List String
  quality : ℚ
  byType : List (String × ℕ)
  bySeverity : List (String × ℕ)
deriving Repr

/-- The value returned by the mistake-catcher
`analyzeAllPromptsWithAI` (scoring-engine.js 1052–1073). -/
structure MKAIAnalysis where
  mistakesCaught : MKCaught
  allAnalyses : List MKEntry
  method : String
  successRate : ℚ
deriving Repr

/-- `MistakeCatcherAnalyzer.analyzeAllPromptsWithAI`
(scoring-engine.js 1004–1074). -/
def mkAnalyzeAllPromptsWithAI (judge : String → MKJudge)
    (matcher : String → Option MKType) (prompts : List Prompt) : MKAIAnalysis :=
  let acc := mkLoop judge matcher prompts
  let analyses := acc.1
  let avgQuality : ℚ :=
    if 0 < analyses.length then
      (analyses.map (·.qualityScore)).sum / (analyses.length : ℚ)
    else 0
  { mistakesCaught :=
      { count := analyses.length
        examples := (analyses.take 5).map (·.text)
        quality := avgQuality
        byType := mkBreakdown (analyses.map (·.type))
        bySeverity := mkBreakdown (analyses.map (·.severity)) }
    allAnalyses := analyses
    method := if acc.2.1 < acc.2.2 then "fallback" else "ai"
    successRate :=
      if 0 < prompts.length then (acc.2.1 : ℚ) / (prompts.length : ℚ) else 0 }

/-- Look a key up in a JS-object histogram
(`breakdown.bySeverity?.high || 0`). -/
def lookupCount (key : String) (b : List (String × ℕ)) : ℕ :=
  match b.find? (fun kv => decide (kv.1 = key)) with
  | some kv => kv.2
  | none => 0

/-- `MistakeCatcherAnalyzer.calculateScoreFromAI`
(scoring-engine.js 1175–1203): count score and quality as for the other
analyzers, with a high-severity bonus in place of the diversity
bonus. -/
def mkCalculateScoreFromAI (aiAnalysis : MKAIAnalysis) : ℚ :=
  if aiAnalysis.allAnalyses.length = 0 then 0
  else
    let countScore : ℚ :=
      if 5 ≤ aiAnalysis.mistakesCaught.count then 4
      else if 3 ≤ aiAnalysis.mistakesCaught.count then 3
      else if 1 ≤ aiAnalysis.mistakesCaught.count then 2
      else 0
    let qualityScore := aiAnalysis.mistakesCaught.quality / 10 * 4
    let severityBonus : ℚ :=
      min 2 ((lookupCount "high" aiAnalysis.mistakesCaught.bySeverity : ℚ) * (1 / 2))
    let totalScore := min 10 (countScore + qualityScore + severityBonus)
    jsRoundQ (totalScore * 10) / 10

/-- `MistakeCatcherAnalyzer.determineVerdict`
(scoring-engine.js 1205–1209). -/
def mkDetermineVerdict (score : ℚ) : String :=
  if 8 ≤ score then "highly_critical"
  else if 5 ≤ score then "somewhat_critical"
  else "not_critical"

/-- `MistakeCatcherAnalyzer.calculateConfidenceFromAI`
(scoring-engine.js 1214–1244). -/
def mkCalculateConfidenceFromAI (aiAnalysis : MKAIAnalysis) : ℚ :=
  let c1 : ℚ := 3 / 10 +
    (if 5 ≤ aiAnalysis.mistakesCaught.count then 3 / 10
     else if 3 ≤ aiAnalysis.mistakesCaught.count then 2 / 10
     else if 1 ≤ aiAnalysis.mistakesCaught.count then 1 / 10
     else 0)
  let c2 := c1 +
    (if 2 ≤ lookupCount "high" aiAnalysis.mistakesCaught.bySeverity then 2 / 10
     else if 1 ≤ lookupCount "high" aiAnalysis.mistakesCaught.bySeverity then 1 / 10
     else 0)
  let c3 := c2 +
    (if 4 / 5 < aiAnalysis.successRate then 3 / 20
     else if 1 / 2 < aiAnalysis.successRate then 1 / 20
     else 0)
  min (19 / 20) (jsRoundQ (c3 * 100) / 100)

/-- The record returned by `MistakeCatcherAnalyzer.analyze`
(scoring-engine.js 951–986).  The no-prompt early return carries no
`confidence` key at all (JS `undefined`), modelled as `none`. -/
structure MKResult where
  score : ℚ
  verdict : String
  confidence : Option ℚ
  mistakesCaught : MKCaught
  analysisMethod : String
  promptsAnalyzed : ℕ
  aiSuccessRate : ℚ
deriving Repr

/-- `MistakeCatcherAnalyzer.analyze` (scoring-engine.js 951–986). -/
def mkAnalyze (judge : String → MKJudge) (matcher : String → Option MKType)
    (prompts : List Prompt) : MKResult :=
  if prompts.length = 0 then
    { score := 0
      verdict := "not_critical"
      confidence := none
      mistakesCaught := { count := 0, examples := [], quality := 0, byType := [], bySeverity := [] }
      analysisMethod := "none"
      promptsAnalyzed := 0
      aiSuccessRate := 0 }
  else
    let aiAnalysis := mkAnalyzeAllPromptsWithAI judge matcher prompts
    let score := mkCalculateScoreFromAI aiAnalysis
    { score := score
      verdict := mkDetermineVerdict score
      confidence := some (mkCalculateConfidenceFromAI aiAnalysis)
      mistakesCaught := aiAnalysis.mistakesCaught
      analysisMethod := aiAnalysis.method
      promptsAnalyzed := prompts.length
      aiSuccessRate := aiAnalysis.successRate }

/-- The four systematic-debugging pattern groups of
`DebuggingReasoningAnalyzer.ruleBasedAnalysis` (scoring-engine.js
1430–1460); the `trial_error` group is checked separately only when no
systematic group matched. -/
inductive DRType where
  | hypothesis | testing | root_cause | narrowing
deriving DecidableEq, Repr

/-- The JS key string of each systematic pattern group. -/
def DRType.name : DRType → String
  | .hypothesis => "hypothesis"
  | .testing => "testing"
  | .root_cause => "root_cause"
  | .narrowing => "narrowing"

/-- The record shape produced by the debugging-reasoning `parseResponse`
(concatenated in profile-generator.js 473–508, embedded below as
`drParseResponse`) and by `ruleBasedAnalysis` (scoring-engine.js
1499–1507). -/
structure DRParsed where
  isSystematic : Bool
  type : String
  debuggingQuality : ℚ
  evidence : String
  reasoning : String
  parseError : Bool
  fallback : Bool
deriving Repr

/-- Outcome of one external judgment attempt for the
debugging-reasoning analyzer. -/
inductive DRJudge where
  | callFailure : DRJudge
  | response : DRParsed → DRJudge

/-- `DebuggingReasoningAnalyzer.ruleBasedAnalysis` (scoring-engine.js
1429–1508): `matcher` gives the first matching systematic group;
`trialMatcher` the separate trial-and-error check used only when no
systematic group matched. -/
def drRuleBasedAnalysis (matcher : String → Option DRType) (trialMatcher : String → Bool)
    (text : String) : DRParsed :=
  match matcher text with
  | some t =>
    let q1 : ℚ := 6 + (if t = .root_cause then 2 else 0)
    let q2 := q1 + (if t = .narrowing then 1 else 0)
    let q3 := q2 + (if 100 < text.length then 1 else 0)
    { isSystematic := true
      type := t.name
      debuggingQuality := min 10 q3
      evidence := "Matched regex pattern"
      reasoning := "Rule-based: " ++ t.name ++ " pattern detected"
      parseError := false
      fallback := true }
  | none =>
    if trialMatcher text then
      { isSystematic := false
        type := "trial_error"
        debuggingQuality := 3
        evidence := "Matched regex pattern"
        reasoning := "Rule-based: trial_error pattern detected"
        parseError := false
        fallback := true }
    else
      { isSystematic := false
        type := "helpless"
        debuggingQuality := 0
        evidence := "none"
        reasoning := "Rule-based: helpless pattern detected"
        parseError := false
        fallback := true }

/-- `DebuggingReasoningAnalyzer.analyzePromptWithAI`
(scoring-engine.js 1405–1424). -/
def drAnalyzePromptWithAI (judge : String → DRJudge) (matcher : String → Option DRType)
    (trialMatcher : String → Bool) (text : String) : DRParsed :=
  match judge text with
  | .callFailure => drRuleBasedAnalysis matcher trialMatcher text
  | .response r => r

/-- An element of the debugging `analyses` array
(scoring-engine.js 1360–1367). -/
structure DREntry where
  text : String
  type : String
  qualityScore : ℚ
  evidence : String
  reasoning : String
  sequence : ℕ
deriving Repr

/-- The prompt loop of the debugging `analyzeAllPromptsWithAI`
(scoring-engine.js 1338–1369), keeping the systematic entries. -/
def drLoop (judge : String → DRJudge) (matcher : String → Option DRType)
    (trialMatcher : String → Bool) : List Prompt → List DREntry × ℕ × ℕ
  | [] => ([], 0, 0)
  | p :: rest =>
    if p.prompt_text.length < 10 then drLoop judge matcher trialMatcher rest
    else
      let analysis := drAnalyzePromptWithAI judge matcher trialMatcher p.prompt_text
      let acc := drLoop judge matcher trialMatcher rest
      let aiSuccessCount := if analysis.parseError then acc.2.1 else acc.2.1 + 1
      let fallbackCount := if analysis.parseError then acc.2.2 + 1 else acc.2.2
      let analyses :=
        if analysis.isSystematic then
          { text := p.prompt_text
            type := analysis.type
            qualityScore := analysis.debuggingQuality
            evidence := analysis.evidence
            reasoning := analysis.reasoning
            sequence := p.prompt_sequence_number } :: acc.1
        else acc.1
      (analyses, aiSuccessCount, fallbackCount)

/-- The `systematicDebugging` aggregate (scoring-engine.js
1383–1395). -/
structure DRDebugging where
  count : ℕ
  examples : List String
  quality : ℚ
  breakdown : List (String × ℕ)
deriving Repr

/-- The value returned by the debugging `analyzeAllPromptsWithAI`
(scoring-engine.js 1382–1399). -/
structure DRAIAnalysis where
  systematicDebugging : DRDebugging
  allAnalyses : List DREntry
  method : String
  successRate : ℚ
deriving Repr

/-- `DebuggingReasoningAnalyzer.analyzeAllPromptsWithAI`
(scoring-engine.js 1337–1400). -/
def drAnalyzeAllPromptsWithAI (judge : String → DRJudge)
    (matcher : String → Option DRType) (trialMatcher : String → Bool)
    (prompts : List Prompt) : DRAIAnalysis :=
  let acc := drLoop judge matcher trialMatcher prompts
  let analyses := acc.1
  let avgQuality : ℚ :=
    if 0 < analyses.length then
      (analyses.map (·.qualityScore)).sum / (analyses.length : ℚ)
    else 0
  { systematicDebugging :=
      { count := analyses.length
        examples := (analyses.take 5).map (·.text)
        quality := avgQuality
        breakdown := mkBreakdown (analyses.map (·.type)) }
    allAnalyses := analyses
    method := if acc.2.1 < acc.2.2 then "fallback" else "ai"
    successRate :=
      if 0 < prompts.length then (acc.2.1 : ℚ) / (prompts.length : ℚ) else 0 }

/-- `DebuggingReasoningAnalyzer.calculateScoreFromAI`
(scoring-engine.js 1513–1541). -/
def drCalculateScoreFromAI (aiAnalysis : DRAIAnalysis) : ℚ :=
  if aiAnalysis.allAnalyses.length = 0 then 0
  else
    let countScore : ℚ :=
      if 5 ≤ aiAnalysis.systematicDebugging.count then 4
      else if 3 ≤ aiAnalysis.systematicDebugging.count then 3
      else if 1 ≤ aiAnalysis.systematicDebugging.count then 2
      else 0
    let qualityScore := aiAnalysis.systematicDebugging.quality / 10 * 4
    let diversityScore : ℚ :=
      min 2 ((aiAnalysis.systematicDebugging.breakdown.length : ℚ) * (1 / 2))
    let totalScore := min 10 (countScore + qualityScore + diversityScore)
    jsRoundQ (totalScore * 10) / 10

/-- `DebuggingReasoningAnalyzer.determineVerdict`
(scoring-engine.js 1543–1547). -/
def drDetermineVerdict (score : ℚ) : String :=
  if 8 ≤ score then "systematic"
  else if 4 ≤ score then "trial_and_error"
  else "helpless"

/-- `DebuggingReasoningAnalyzer.calculateConfidenceFromAI`
(scoring-engine.js 1552–1582). -/
def drCalculateConfidenceFromAI (aiAnalysis : DRAIAnalysis) : ℚ :=
  let c1 : ℚ := 3 / 10 +
    (if 5 ≤ aiAnalysis.systematicDebugging.count then 3 / 10
     else if 3 ≤ aiAnalysis.systematicDebugging.count then 2 / 10
     else if 1 ≤ aiAnalysis.systematicDebugging.count then 1 / 10
     else 0)
  let c2 := c1 +
    (if 3 ≤ aiAnalysis.systematicDebugging.breakdown.length then 2 / 10
     else if 2 ≤ aiAnalysis.systematicDebugging.breakdown.length then 1 / 10
     else 0)
  let c3 := c2 +
    (if 4 / 5 < aiAnalysis.successRate then 3 / 20
     else if 1 / 2 < aiAnalysis.successRate then 1 / 20
     else 0)
  min (19 / 20) (jsRoundQ (c3 * 100) / 100)

/-- The record returned by `DebuggingReasoningAnalyzer.analyze`
(scoring-engine.js 1265–1306); as with the mistake catcher the
no-prompt early return has no `confidence` key.  The
`debuggingSessionCount` field counts rows of a table this component
only reads for display and is omitted. -/
structure DRResult where
  score : ℚ
  verdict : String
  confidence : Option ℚ
  systematicDebugging : DRDebugging
  analysisMethod : String
  debuggingPromptCount : ℕ
  aiSuccessRate : ℚ
deriving Repr

/-- `DebuggingReasoningAnalyzer.analyze` (scoring-engine.js 1265–1306):
analyzes the prompts flagged `is_debugging`, or every prompt when none
are flagged. -/
def drAnalyze (judge : String → DRJudge) (matcher : String → Option DRType)
    (trialMatcher : String → Bool) (prompts : List Prompt) : DRResult :=
  if prompts.length = 0 then
    { score := 0
      verdict := "helpless"
      confidence := none
      systematicDebugging := { count := 0, examples := [], quality := 0, breakdown := [] }
      analysisMethod := "none"
      debuggingPromptCount := 0
      aiSuccessRate := 0 }
  else
    let debuggingPrompts := prompts.filter (·.is_debugging)
    let promptsToAnalyze := if 0 < debuggingPrompts.length then debuggingPrompts else prompts
    let aiAnalysis := drAnalyzeAllPromptsWithAI judge matcher trialMatcher promptsToAnalyze
    let score := drCalculateScoreFromAI aiAnalysis
    { score := score
      verdict := drDetermineVerdict score
      confidence := some (drCalculateConfidenceFromAI aiAnalysis)
      systematicDebugging := aiAnalysis.systematicDebugging
      analysisMethod := aiAnalysis.method
      debuggingPromptCount := promptsToAnalyze.length
      aiSuccessRate := aiAnalysis.successRate }

/-- A conversation consisting of one analyzable prompt whose external
judgment call fails (error or timeout). -/
def failPrompt : Prompt :=
  { id := 1
    conversation_id := "conv-1"
    prompt_text := "please implement the parse function"
    source := "cursor"
    timestamp := 100
    prompt_sequence_number := 1
    is_question := false
    is_debugging := false }

/-- Claim C2, failing-input evaluation: when the external judgment call
fails for the only analyzable prompt, every one of the three analyzers
routes through its rule-based fallback, whose result carries
`parseError := false` — so the loop counts the prompt as an AI success
(`aiSuccessCount = 1`, `fallbackCount = 0`) instead of recording a
fallback sample, reports `method = "ai"` although 100 % of the
attempted calls failed, and reports `successRate = 1`. -/
theorem analyzers_count_call_failure_as_ai_success :
    ((ctLoop (fun _ => CTJudge.callFailure) (fun _ => none) [failPrompt]).2.1 = 1 ∧
     (ctLoop (fun _ => CTJudge.callFailure) (fun _ => none) [failPrompt]).2.2 = 0 ∧
     (ctAnalyzeAllPromptsWithAI (fun _ => CTJudge.callFailure) (fun _ => none)
        [failPrompt]).method = "ai" ∧
     (ctAnalyzeAllPromptsWithAI (fun _ => CTJudge.callFailure) (fun _ => none)
        [failPrompt]).successRate = 1) ∧
    ((mkLoop (fun _ => MKJudge.callFailure) (fun _ => none) [failPrompt]).2.1 = 1 ∧
     (mkLoop (fun _ => MKJudge.callFailure) (fun _ => none) [failPrompt]).2.2 = 0 ∧
     (mkAnalyzeAllPromptsWithAI (fun _ => MKJudge.callFailure) (fun _ => none)
        [failPrompt]).method = "ai" ∧
     (mkAnalyzeAllPromptsWithAI (fun _ => MKJudge.callFailure) (fun _ => none)
        [failPrompt]).successRate = 1) ∧
    ((drLoop (fun _ => DRJudge.callFailure) (fun _ => none) (fun _ => false)
        [failPrompt]).2.1 = 1 ∧
     (drLoop (fun _ => DRJudge.callFailure) (fun _ => none) (fun _ => false)
        [failPrompt]).2.2 = 0 ∧
     (drAnalyzeAllPromptsWithAI (fun _ => DRJudge.callFailure) (fun _ => none)
        (fun _ => false) [failPrompt]).method = "ai" ∧
     (drAnalyzeAllPromptsWithAI (fun _ => DRJudge.callFailure) (fun _ => none)
        (fun _ => false) [failPrompt]).successRate = 1) := by
  have hlen : ¬(failPrompt.prompt_text.length < 10) := by decide
  refine ⟨⟨?_, ?_, ?_, ?_⟩, ⟨?_, ?_, ?_, ?_⟩, ⟨?_, ?_, ?_, ?_⟩⟩ <;>
    simp [ctLoop, mkLoop, drLoop, ctAnalyzeAllPromptsWithAI, mkAnalyzeAllPromptsWithAI,
      drAnalyzeAllPromptsWithAI, ctAnalyzePromptWithAI, mkAnalyzePromptWithAI,
      drAnalyzePromptWithAI, ctRuleBasedAnalysis, mkRuleBasedAnalysis,
      drRuleBasedAnalysis, hlen]

/-- A prompt shorter than 10 characters, skipped by every analyzer. -/
def shortPrompt : Prompt :=
  { id := 2
    conversation_id := "conv-1"
    prompt_text := "fix"
    source := "cursor"
    timestamp := 150
    prompt_sequence_number := 2
    is_question := false
    is_debugging := false }

/-- A successfully parsed (non-relevant) judgment response. -/
def ctOkParsed : CTParsed :=
  { isCriticalThinking := false
    type := "none"
    qualityScore := 0
    evidence := "none"
    reasoning := "no critical thinking in this prompt"
    parseError := false
    fallback := false }

/-- Claim C3, counterexample: with one short prompt (`"fix"`) and one
analyzable prompt whose judgment call succeeds, `successRate` is
`1/2`, not `1`: the denominator is `prompts.length`, which still counts
the skipped short prompt, so the short prompt is *not* excluded from
the success-rate denominator. -/
theorem ct_successRate_denominator_includes_short_prompts :
    (ctAnalyzeAllPromptsWithAI (fun _ => CTJudge.response ctOkParsed) (fun _ => none)
        [shortPrompt, failPrompt]).successRate = 1 / 2 ∧
      (1 / 2 : ℚ) ≠ 1 := by
  constructor
  · have hshort : shortPrompt.prompt_text.length < 10 := by decide
    have hlong : ¬(failPrompt.prompt_text.length < 10) := by decide
    simp [ctAnalyzeAllPromptsWithAI, ctLoop, ctAnalyzePromptWithAI, hshort, hlong, ctOkParsed]
  · norm_num

/-- The critical-thinking loop consults the judgment oracle only on
prompts of length at least 10: oracles agreeing there give identical
results. -/
theorem ctLoop_judge_agree (judge judge' : String → CTJudge)
    (matcher : String → Option CTType) (prompts : List Prompt)
    (h : ∀ t : String, 10 ≤ t.length → judge t = judge' t) :
    ctLoop judge matcher prompts = ctLoop judge' matcher prompts := by
  induction prompts with
  | nil => rfl
  | cons p rest ih =>
    by_cases hp : p.prompt_text.length < 10
    · simp [ctLoop, hp, ih]
    · have hj := h p.prompt_text (by omega)
      simp [ctLoop, hp, ctAnalyzePromptWithAI, hj, ih]

/-- AI successes plus fallbacks of the critical-thinking loop count
exactly the prompts of length at least 10. -/
theorem ctLoop_counts (judge : String → CTJudge) (matcher : String → Option CTType)
    (prompts : List Prompt) :
    (ctLoop judge matcher prompts).2.1 + (ctLoop judge matcher prompts).2.2 =
      (prompts.filter (fun p => decide (10 ≤ p.prompt_text.length))).length := by
  induction prompts with
  | nil => rfl
  | cons p rest ih =>
    by_cases hp : p.prompt_text.length < 10
    · have : (decide (10 ≤ p.prompt_text.length)) = false := by
        simp; omega
      simp [ctLoop, hp, List.filter_cons, this, ih]
    · have : (decide (10 ≤ p.prompt_text.length)) = true := by
        simp; omega
      by_cases hpe : (ctAnalyzePromptWithAI judge matcher p.prompt_text).parseError
      · simp [ctLoop, hp, hpe, List.filter_cons, this]
        omega
      · simp [ctLoop, hp, hpe, List.filter_cons, this]
        omega

/-- Mistake-catcher analogue of `ctLoop_judge_agree`. -/
theorem mkLoop_judge_agree (judge judge' : String → MKJudge)
    (matcher : String → Option MKType) (prompts : List Prompt)
    (h : ∀ t : String, 10 ≤ t.length → judge t = judge' t) :
    mkLoop judge matcher prompts = mkLoop judge' matcher prompts := by
  induction prompts with
  | nil => rfl
  | cons p rest ih =>
    by_cases hp : p.prompt_text.length < 10
    · simp [mkLoop, hp, ih]
    · have hj := h p.prompt_text (by omega)
      simp [mkLoop, hp, mkAnalyzePromptWithAI, hj, ih]

/-- Mistake-catcher analogue of `ctLoop_counts`. -/
theorem mkLoop_counts (judge : String → MKJudge) (matcher : String → Option MKType)
    (prompts : List Prompt) :
    (mkLoop judge matcher prompts).2.1 + (mkLoop judge matcher prompts).2.2 =
      (prompts.filter (fun p => decide (10 ≤ p.prompt_text.length))).length := by
  induction prompts with
  | nil => rfl
  | cons p rest ih =>
    by_cases hp : p.prompt_text.length < 10
    · have : (decide (10 ≤ p.prompt_text.length)) = false := by
        simp; omega
      simp [mkLoop, hp, List.filter_cons, this, ih]
    · have : (decide (10 ≤ p.prompt_text.length)) = true := by
        simp; omega
      by_cases hpe : (mkAnalyzePromptWithAI judge matcher p.prompt_text).parseError
      · simp [mkLoop, hp, hpe, List.filter_cons, this]
        omega
      · simp [mkLoop, hp, hpe, List.filter_cons, this]
        omega

/-- Debugging-reasoning analogue of `ctLoop_judge_agree`. -/
theorem drLoop_judge_agree (judge judge' : String → DRJudge)
    (matcher : String → Option DRType) (trialMatcher : String → Bool)
    (prompts : List Prompt)
    (h : ∀ t : String, 10 ≤ t.length → judge t = judge' t) :
    drLoop judge matcher trialMatcher prompts = drLoop judge' matcher trialMatcher prompts := by
  induction prompts with
  | nil => rfl
  | cons p rest ih =>
    by_cases hp : p.prompt_text.length < 10
    · simp [drLoop, hp, ih]
    · have hj := h p.prompt_text (by omega)
      simp [drLoop, hp, drAnalyzePromptWithAI, hj, ih]

/-- Debugging-reasoning analogue of `ctLoop_counts`. -/
theorem drLoop_counts (judge : String → DRJudge) (matcher : String → Option DRType)
    (trialMatcher : String → Bool) (prompts : List Prompt) :
    (drLoop judge matcher trialMatcher prompts).2.1 +
        (drLoop judge matcher trialMatcher prompts).2.2 =
      (prompts.filter (fun p => decide (10 ≤ p.prompt_text.length))).length := by
  induction prompts with
  | nil => rfl
  | cons p rest ih =>
    by_cases hp : p.prompt_text.length < 10
    · have : (decide (10 ≤ p.prompt_text.length)) = false := by
        simp; omega
      simp [drLoop, hp, List.filter_cons, this, ih]
    · have : (decide (10 ≤ p.prompt_text.length)) = true := by
        simp; omega
      by_cases hpe : (drAnalyzePromptWithAI judge matcher trialMatcher p.prompt_text).parseError
      · simp [drLoop, hp, hpe, List.filter_cons, this]
        omega
      · simp [drLoop, hp, hpe, List.filter_cons, this]
        omega

/-- Claim C3, amended: no analyzer consults the external judgment
capability for a prompt shorter than 10 characters (two oracles that
agree on the longer prompts produce identical analyses), and such
prompts are excluded from the attempted-call counters (AI successes
plus fallbacks count exactly the prompts of length at least 10) — but
the success-rate denominator is the total number of prompts of the
conversation, *including* the skipped short ones. -/
theorem analyzers_skip_short_prompts_except_successRate_denominator :
    (∀ (judge judge' : String → CTJudge) (matcher : String → Option CTType)
        (prompts : List Prompt),
      (∀ t : String, 10 ≤ t.length → judge t = judge' t) →
      ctAnalyzeAllPromptsWithAI judge matcher prompts =
          ctAnalyzeAllPromptsWithAI judge' matcher prompts ∧
        (ctLoop judge matcher prompts).2.1 + (ctLoop judge matcher prompts).2.2 =
          (prompts.filter (fun p => decide (10 ≤ p.prompt_text.length))).length ∧
        (prompts ≠ [] →
          (ctAnalyzeAllPromptsWithAI judge matcher prompts).successRate =
            ((ctLoop judge matcher prompts).2.1 : ℚ) / (prompts.length : ℚ))) ∧
    (∀ (judge judge' : String → MKJudge) (matcher : String → Option MKType)
        (prompts : List Prompt),
      (∀ t : String, 10 ≤ t.length → judge t = judge' t) →
      mkAnalyzeAllPromptsWithAI judge matcher prompts =
          mkAnalyzeAllPromptsWithAI judge' matcher prompts ∧
        (mkLoop judge matcher prompts).2.1 + (mkLoop judge matcher prompts).2.2 =
          (prompts.filter (fun p => decide (10 ≤ p.prompt_text.length))).length ∧
        (prompts ≠ [] →
          (mkAnalyzeAllPromptsWithAI judge matcher prompts).successRate =
            ((mkLoop judge matcher prompts).2.1 : ℚ) / (prompts.length : ℚ))) ∧
    (∀ (judge judge' : String → DRJudge) (matcher : String → Option DRType)
        (trialMatcher : String → Bool) (prompts : List Prompt),
      (∀ t : String, 10 ≤ t.length → judge t = judge' t) →
      drAnalyzeAllPromptsWithAI judge matcher trialMatcher prompts =
          drAnalyzeAllPromptsWithAI judge' matcher trialMatcher prompts ∧
        (drLoop judge matcher trialMatcher prompts).2.1 +
            (drLoop judge matcher trialMatcher prompts).2.2 =
          (prompts.filter (fun p => decide (10 ≤ p.prompt_text.length))).length ∧
        (prompts ≠ [] →
          (drAnalyzeAllPromptsWithAI judge matcher trialMatcher prompts).successRate =
            ((drLoop judge matcher trialMatcher prompts).2.1 : ℚ) / (prompts.length : ℚ))) := by
  refine ⟨?_, ?_, ?_⟩
  · intro judge judge' matcher prompts h
    refine ⟨?_, ctLoop_counts judge matcher prompts, ?_⟩
    · unfold ctAnalyzeAllPromptsWithAI
      rw [ctLoop_judge_agree judge judge' matcher prompts h]
    · intro hne
      have hpos : 0 < prompts.length := List.length_pos.mpr hne
      simp [ctAnalyzeAllPromptsWithAI, hpos]
  · intro judge judge' matcher prompts h
    refine ⟨?_, mkLoop_counts judge matcher prompts, ?_⟩
    · unfold mkAnalyzeAllPromptsWithAI
      rw [mkLoop_judge_agree judge judge' matcher prompts h]
    · intro hne
      have hpos : 0 < prompts.length := List.length_pos.mpr hne
      simp [mkAnalyzeAllPromptsWithAI, hpos]
  · intro judge judge' matcher trialMatcher prompts h
    refine ⟨?_, drLoop_counts judge matcher trialMatcher prompts, ?_⟩
    · unfold drAnalyzeAllPromptsWithAI
      rw [drLoop_judge_agree judge judge' matcher trialMatcher prompts h]
    · intro hne
      have hpos : 0 < prompts.length := List.length_pos.mpr hne
      simp [drAnalyzeAllPromptsWithAI, hpos]

/-- Witness for the amended C3, at a concrete two-prompt conversation
with an always-succeeding judgment oracle. -/
theorem analyzers_skip_short_prompts_except_successRate_denominator_witness :
    (ctLoop (fun _ => CTJudge.response ctOkParsed) (fun _ => none)
          [shortPrompt, failPrompt]).2.1 +
        (ctLoop (fun _ => CTJudge.response ctOkParsed) (fun _ => none)
          [shortPrompt, failPrompt]).2.2 =
      (([shortPrompt, failPrompt]).filter
        (fun p => decide (10 ≤ p.prompt_text.length))).length ∧
    (ctAnalyzeAllPromptsWithAI (fun _ => CTJudge.response ctOkParsed) (fun _ => none)
        [shortPrompt, failPrompt]).successRate =
      ((ctLoop (fun _ => CTJudge.response ctOkParsed) (fun _ => none)
          [shortPrompt, failPrompt]).2.1 : ℚ) /
        (([shortPrompt, failPrompt] : List Prompt).length : ℚ) := by
  have h := analyzers_skip_short_prompts_except_successRate_denominator.1
    (fun _ => CTJudge.response ctOkParsed) (fun _ => CTJudge.response ctOkParsed)
    (fun _ => none) [shortPrompt, failPrompt] (fun _ _ => rfl)
  exact ⟨h.2.1, h.2.2 (by simp)⟩

/-! ## Scoring engine (scoring-engine.js 6–375) -/

/-- The `combined_insights` sub-record of a semantic analysis as read by
`scorePromptQuality` (scoring-engine.js 50–55); a missing numeric field
is modelled as the `0` that `|| 0` supplies. -/
structure CombinedInsights where
  confidence_score : ℚ
  green_flags : List String
  red_flags : List String
deriving Repr

/-- The `rule_based_metrics` sub-record as read by
`scoreTechnicalDepth` (scoring-engine.js 113–126). -/
structure RuleBasedMetrics where
  technical_term_count : ℤ
  has_file_refs : Bool
deriving Repr

/-- The `semantic_analysis` sub-record as read by the flag generators
(scoring-engine.js 256–267, 318–330). -/
structure SemanticAnalysisInfo where
  understanding_level : String
deriving Repr

/-- One per-prompt semantic analysis record consumed by the scoring
engine; `none` models an absent (JS `undefined`) sub-record. -/
structure SemanticAnalysis where
  prompt_text : String
  combined_insights : Option CombinedInsights
  rule_based_metrics : Option RuleBasedMetrics
  semantic_analysis : Option SemanticAnalysisInfo
deriving Repr

/-- An anti-pattern detection record (spec §4.3) as consumed by
`scoreUnderstanding` and `generateRedFlags`. -/
structure AntiPattern where
  type : String
  severity : String
  description : String
  count : ℕ
  suggestion : String
deriving Repr

/-- A positive-pattern detection record as consumed by
`scoreTechnicalDepth`, `scoreUnderstanding` and `generateGreenFlags`. -/
structure PositivePattern where
  type : String
  description : String
  count : ℕ
  examples : List String
deriving Repr

/-- The `edit_coherence` metrics consumed by `scoreCodeCoherence`
(scoring-engine.js 151–158). -/
structure EditCoherence where
  coherence_score : ℚ
  focused_edits : ℕ
  scattered_edits : ℕ
deriving Repr

/-- The `iteration_analysis` metrics (scoring-engine.js 161–163). -/
structure IterationAnalysis where
  iteration_score : ℚ
  high_iteration_files : ℕ
  red_flag : Bool
deriving Repr

/-- The `reversal_analysis` metrics (scoring-engine.js 166–172). -/
structure ReversalAnalysis where
  reversal_score : ℚ
  files_with_reversals : ℕ
  red_flag : Bool
deriving Repr

/-- The `productivity_metrics` consumed by `scoreUnderstanding`
(scoring-engine.js 203–206). -/
structure ProductivityMetrics where
  productivity_score : ℚ
  assessment : String
deriving Repr

/-- The `file_focus` metrics consumed by `generateGreenFlags`
(scoring-engine.js 298–305). -/
structure FileFocus where
  focus_percentage : ℚ
  assessment : String
deriving Repr

/-- The pattern-analyzer output consumed by the scoring engine; each
section may be absent (JS optional chaining). -/
structure PatternAnalysis where
  edit_coherence : Option EditCoherence
  iteration_analysis : Option IterationAnalysis
  reversal_analysis : Option ReversalAnalysis
  productivity_metrics : Option ProductivityMetrics
  file_focus : Option FileFocus
deriving Repr

/-- The `data` argument of `calculateDeveloperScore`
(scoring-engine.js 10–17); a JS `null`/`undefined` list argument behaves
as the empty list in every consumer, and is modelled so. -/
structure ScoreInput where
  semanticAnalyses : List SemanticAnalysis
  correlations : List Correlation
  patternAnalysis : Option PatternAnalysis
  antiPatterns : List AntiPattern
  positivePatterns : List PositivePattern
deriving Repr

/-- The `Math.round(Math.max(0, Math.min(100, score)))` clamp ending
every sub-score. -/
def clamp0100Round (s : ℚ) : ℚ := jsRoundQ (max 0 (min 100 s))

/-- `ScoringEngine.scorePromptQuality` (scoring-engine.js 43–65). -/
def scorePromptQuality (semanticAnalyses : List SemanticAnalysis) : ℚ :=
  if semanticAnalyses.length = 0 then 50
  else
    let totalConfidence : ℚ := (semanticAnalyses.map (fun a =>
      match a.combined_insights with
      | some ci => ci.confidence_score
      | none => 0)).sum
    let totalGreenFlags : ℕ := (semanticAnalyses.map (fun a =>
      match a.combined_insights with
      | some ci => ci.green_flags.length
      | none => 0)).sum
    let totalRedFlags : ℕ := (semanticAnalyses.map (fun a =>
      match a.combined_insights with
      | some ci => ci.red_flags.length
      | none => 0)).sum
    let avgConfidence := totalConfidence / (semanticAnalyses.length : ℚ)
    let flagRatioVal : ℚ :=
      if 0 < totalRedFlags then (totalGreenFlags : ℚ) / (totalRedFlags : ℚ)
      else (totalGreenFlags : ℚ)
    clamp0100Round (avgConfidence * (7 / 10) + min (flagRatioVal * 10) 30)

/-- The case-insensitive `/^(help|please|can you|could you|how do i)/i`
test of `scoreSelfSufficiency` (scoring-engine.js 94–96). -/
def jsHelpPrefixTest (s : String) : Bool :=
  let l := s.toList.map Char.toLower
  decide ("help".toList <+: l) || decide ("please".toList <+: l) ||
    decide ("can you".toList <+: l) || decide ("could you".toList <+: l) ||
    decide ("how do i".toList <+: l)

/-- `ScoringEngine.scoreSelfSufficiency` (scoring-engine.js 70–103).
The second parameter of the source is unused there and omitted. -/
def scoreSelfSufficiency (correlations : List Correlation) : ℚ :=
  if correlations.length = 0 then 50
  else
    let questions := correlations.filter (fun c => containsSubstr c.prompt_text "?")
    let questionRate : ℚ := ((questions.length : ℚ) / (correlations.length : ℚ)) * 100
    let s1 : ℚ := 60 +
      (if 50 < questionRate then -30
       else if 30 < questionRate then -15
       else if questionRate < 20 then 10
       else 0)
    let actionablePrompts := correlations.filter (fun c => decide (0 < c.stats.total_edits))
    let actionRate : ℚ := ((actionablePrompts.length : ℚ) / (correlations.length : ℚ)) * 100
    let s2 := s1 +
      (if 70 ≤ actionRate then 20
       else if 50 ≤ actionRate then 10
       else if actionRate < 30 then -15
       else 0)
    let helpPrompts := correlations.filter (fun c => jsHelpPrefixTest c.prompt_text)
    let helpRate : ℚ := ((helpPrompts.length : ℚ) / (correlations.length : ℚ)) * 100
    let s3 := s2 +
      (if 40 < helpRate then -20
       else if helpRate < 20 then 10
       else 0)
    clamp0100Round s3

/-- `ScoringEngine.scoreTechnicalDepth` (scoring-engine.js 108–140). -/
def scoreTechnicalDepth (semanticAnalyses : List SemanticAnalysis)
    (positivePatterns : List PositivePattern) : ℚ :=
  let s1 : ℚ :=
    if 0 < semanticAnalyses.length then
      let technicalPrompts := semanticAnalyses.filter (fun a =>
        match a.rule_based_metrics with
        | some m => decide (2 ≤ m.technical_term_count)
        | none => false)
      let techRate : ℚ := ((technicalPrompts.length : ℚ) / (semanticAnalyses.length : ℚ)) * 100
      let d1 : ℚ :=
        if 60 ≤ techRate then 25
        else if 40 ≤ techRate then 15
        else if techRate < 20 then -15
        else 0
      let fileRefPrompts := semanticAnalyses.filter (fun a =>
        match a.rule_based_metrics with
        | some m => m.has_file_refs
        | none => false)
      let fileRefRate : ℚ := ((fileRefPrompts.length : ℚ) / (semanticAnalyses.length : ℚ)) * 100
      let d2 : ℚ :=
        if 50 ≤ fileRefRate then 15
        else if 30 ≤ fileRefRate then 10
        else 0
      50 + d1 + d2
    else 50
  let s2 := s1 +
    (if positivePatterns.any (fun p => decide (p.type = "architectural_thinking")) then 15 else 0) +
    (if positivePatterns.any (fun p => decide (p.type = "testing_awareness")) then 10 else 0) +
    (if positivePatterns.any (fun p => decide (p.type = "technical_specificity")) then 10 else 0)
  clamp0100Round s2

/-- `ScoringEngine.scoreCodeCoherence` (scoring-engine.js 145–175).
When `edit_coherence` is present the baseline 50 is overwritten by
`coherence_score * 0.4`. -/
def scoreCodeCoherence (patternAnalysis : Option PatternAnalysis) : ℚ :=
  match patternAnalysis with
  | none => 50
  | some pa =>
    let s1 : ℚ :=
      match pa.edit_coherence with
      | some ec =>
        ec.coherence_score * (4 / 10) +
          (if ec.scattered_edits < ec.focused_edits then 15 else 0)
      | none => 50
    let s2 := s1 +
      (match pa.iteration_analysis with
       | some ia => ia.iteration_score * (3 / 10)
       | none => 0)
    let s3 := s2 +
      (match pa.reversal_analysis with
       | some ra => ra.reversal_score * (3 / 10) + (if ra.red_flag then -20 else 0)
       | none => 0)
    clamp0100Round s3

/-- `ScoringEngine.scoreUnderstanding` (scoring-engine.js 180–209). -/
def scoreUnderstanding (antiPatterns : List AntiPattern)
    (positivePatterns : List PositivePattern)
    (patternAnalysis : Option PatternAnalysis) : ℚ :=
  let s1 : ℚ := 60 + (antiPatterns.map (fun p =>
    if p.severity = "high" then (-15 : ℚ)
    else if p.severity = "medium" then -10
    else -5)).sum
  let s2 := s1 + (positivePatterns.map (fun p =>
    if p.type = "architectural_thinking" then (15 : ℚ)
    else if p.type = "testing_awareness" then 12
    else if p.type = "improving_specificity" then 10
    else 8)).sum
  let s3 := s2 +
    (match patternAnalysis with
     | some pa =>
       match pa.productivity_metrics with
       | some pm => (pm.productivity_score - 50) * (2 / 10)
       | none => 0
     | none => 0)
  clamp0100Round s3

/-- The five sub-scores and the overall score returned by
`calculateDeveloperScore` (scoring-engine.js 19–37). -/
structure DeveloperScores where
  prompt_quality : ℚ
  self_sufficiency : ℚ
  technical_depth : ℚ
  code_coherence : ℚ
  understanding : ℚ
  overall : ℚ
deriving Repr

/-- `ScoringEngine.calculateDeveloperScore` (scoring-engine.js 10–38):
overall is the rounded 0.20-weighted sum of the five sub-scores. -/
def calculateDeveloperScore (data : ScoreInput) : DeveloperScores :=
  let pq := scorePromptQuality data.semanticAnalyses
  let ss := scoreSelfSufficiency data.correlations
  let td := scoreTechnicalDepth data.semanticAnalyses data.positivePatterns
  let cc := scoreCodeCoherence data.patternAnalysis
  let u := scoreUnderstanding data.antiPatterns data.positivePatterns data.patternAnalysis
  { prompt_quality := pq
    self_sufficiency := ss
    technical_depth := td
    code_coherence := cc
    understanding := u
    overall := jsRoundQ (pq * (2 / 10) + ss * (2 / 10) + td * (2 / 10) +
      cc * (2 / 10) + u * (2 / 10)) }

/-! ## Bound lemmas for the scores and confidences -/

/-- `Math.round` does not go below an integer lower bound. -/
theorem le_jsRoundQ {a : ℤ} {q : ℚ} (h : (a : ℚ) ≤ q) : (a : ℚ) ≤ jsRoundQ q := by
  unfold jsRoundQ jsRound
  exact_mod_cast Int.le_floor.mpr (by linarith)

/-- `Math.round` does not exceed an integer upper bound. -/
theorem jsRoundQ_le {q : ℚ} {b : ℤ} (h : q ≤ (b : ℚ)) : jsRoundQ q ≤ (b : ℚ) := by
  unfold jsRoundQ jsRound
  exact_mod_cast Int.floor_le_iff.mpr (by linarith)

/-- The `Math.round(Math.max(0, Math.min(100, ·)))` clamp lands in
`[0, 100]`. -/
theorem clamp0100Round_bounds (s : ℚ) :
    0 ≤ clamp0100Round s ∧ clamp0100Round s ≤ 100 := by
  unfold clamp0100Round
  constructor
  · have h : (0 : ℚ) ≤ max 0 (min 100 s) := le_max_left _ _
    have := le_jsRoundQ (a := 0) (q := max 0 (min 100 s)) (by exact_mod_cast h)
    simpa using this
  · have h : max 0 (min 100 s) ≤ 100 :=
      max_le (by norm_num) (min_le_left _ _)
    have := jsRoundQ_le (q := max 0 (min 100 s)) (b := 100) (by exact_mod_cast h)
    simpa using this

/-- `scorePromptQuality` is clamped to `[0, 100]`. -/
theorem scorePromptQuality_bounds (l : List SemanticAnalysis) :
    0 ≤ scorePromptQuality l ∧ scorePromptQuality l ≤ 100 := by
  by_cases h : l.length = 0
  · simp only [scorePromptQuality, if_pos h]
    norm_num
  · simp only [scorePromptQuality, if_neg h]
    exact clamp0100Round_bounds _

/-- `scoreSelfSufficiency` is clamped to `[0, 100]`. -/
theorem scoreSelfSufficiency_bounds (l : List Correlation) :
    0 ≤ scoreSelfSufficiency l ∧ scoreSelfSufficiency l ≤ 100 := by
  by_cases h : l.length = 0
  · simp only [scoreSelfSufficiency, if_pos h]
    norm_num
  · simp only [scoreSelfSufficiency, if_neg h]
    exact clamp0100Round_bounds _

/-- `scoreTechnicalDepth` is clamped to `[0, 100]`. -/
theorem scoreTechnicalDepth_bounds (l : List SemanticAnalysis)
    (pp : List PositivePattern) :
    0 ≤ scoreTechnicalDepth l pp ∧ scoreTechnicalDepth l pp ≤ 100 := by
  simp only [scoreTechnicalDepth]
  exact clamp0100Round_bounds _

/-- `scoreCodeCoherence` is clamped to `[0, 100]`. -/
theorem scoreCodeCoherence_bounds (pa : Option PatternAnalysis) :
    0 ≤ scoreCodeCoherence pa ∧ scoreCodeCoherence pa ≤ 100 := by
  cases pa with
  | none =>
    constructor <;> norm_num [scoreCodeCoherence]
  | some p =>
    simp only [scoreCodeCoherence]
    exact clamp0100Round_bounds _

/-- `scoreUnderstanding` is clamped to `[0, 100]`. -/
theorem scoreUnderstanding_bounds (ap : List AntiPattern)
    (pp : List PositivePattern) (pa : Option PatternAnalysis) :
    0 ≤ scoreUnderstanding ap pp pa ∧ scoreUnderstanding ap pp pa ≤ 100 := by
  simp only [scoreUnderstanding]
  exact clamp0100Round_bounds _

/-- Bounds of an average of values in `[0, 10]`. -/
theorem avg_bounds_0_10 (l : List ℚ) (h : ∀ x ∈ l, 0 ≤ x ∧ x ≤ 10)
    (hl : 0 < l.length) :
    0 ≤ l.sum / (l.length : ℚ) ∧ l.sum / (l.length : ℚ) ≤ 10 := by
  have hpos : (0 : ℚ) < (l.length : ℚ) := by exact_mod_cast hl
  constructor
  · exact div_nonneg (List.sum_nonneg (fun x hx => (h x hx).1)) hpos.le
  · rw [div_le_iff₀ hpos]
    have h2 := List.sum_le_card_nsmul l 10 (fun x hx => (h x hx).2)
    have : l.sum ≤ (l.length : ℚ) * 10 := by
      simpa [nsmul_eq_mul] using h2
    linarith

/-- Quality score bounds of the critical-thinking rule-based
fallback. -/
theorem ctRuleBasedAnalysis_quality_bounds (m : String → Option CTType) (t : String) :
    0 ≤ (ctRuleBasedAnalysis m t).qualityScore ∧
      (ctRuleBasedAnalysis m t).qualityScore ≤ 10 := by
  cases hm : m t with
  | none => simp [ctRuleBasedAnalysis, hm]
  | some ty =>
    simp only [ctRuleBasedAnalysis, hm]
    constructor
    · apply le_min (by norm_num)
      split_ifs <;> norm_num
    · exact min_le_left _ _

/-- Quality score bounds of the mistake-catcher rule-based fallback. -/
theorem mkRuleBasedAnalysis_quality_bounds (m : String → Option MKType) (t : String) :
    0 ≤ (mkRuleBasedAnalysis m t).qualityScore ∧
      (mkRuleBasedAnalysis m t).qualityScore ≤ 10 := by
  cases hm : m t with
  | none => simp [mkRuleBasedAnalysis, hm]
  | some ty =>
    simp only [mkRuleBasedAnalysis, hm]
    cases ty <;> norm_num

/-- Quality score bounds of the debugging-reasoning rule-based
fallback. -/
theorem drRuleBasedAnalysis_quality_bounds (m : String → Option DRType)
    (tm : String → Bool) (t : String) :
    0 ≤ (drRuleBasedAnalysis m tm t).debuggingQuality ∧
      (drRuleBasedAnalysis m tm t).debuggingQuality ≤ 10 := by
  cases hm : m t with
  | none =>
    by_cases htm : tm t = true <;>
      constructor <;> norm_num [drRuleBasedAnalysis, hm, htm]
  | some ty =>
    simp only [drRuleBasedAnalysis, hm]
    constructor
    · apply le_min (by norm_num)
      split_ifs <;> norm_num
    · exact min_le_left _ _

/-- Every entry collected by the critical-thinking loop has a quality
score in `[0, 10]`, provided the parsed judgments do (discharged below
for every oracle routed through the embedded `ctParseResponse`). -/
theorem ctLoop_quality_bounds (judge : String → CTJudge)
    (matcher : String → Option CTType) (prompts : List Prompt)
    (hq : ∀ t r, judge t = CTJudge.response r → 0 ≤ r.qualityScore ∧ r.qualityScore ≤ 10) :
    ∀ en ∈ (ctLoop judge matcher prompts).1,
      0 ≤ en.qualityScore ∧ en.qualityScore ≤ 10 := by
  induction prompts with
  | nil => simp [ctLoop]
  | cons p rest ih =>
    by_cases hp : p.prompt_text.length < 10
    · simpa [ctLoop, hp] using ih
    · intro en hen
      simp only [ctLoop, if_neg hp] at hen
      by_cases hcrit : (ctAnalyzePromptWithAI judge matcher p.prompt_text).isCriticalThinking
      · rw [if_pos hcrit] at hen
        rcases List.mem_cons.mp hen with h1 | h1
        · rw [h1]
          show 0 ≤ (ctAnalyzePromptWithAI judge matcher p.prompt_text).qualityScore ∧ _
          unfold ctAnalyzePromptWithAI
          cases hj : judge p.prompt_text with
          | callFailure => exact ctRuleBasedAnalysis_quality_bounds matcher p.prompt_text
          | response r => exact hq _ r hj
        · exact ih en h1
      · rw [if_neg hcrit] at hen
        exact ih en hen

/-- Mistake-catcher analogue of `ctLoop_quality_bounds`. -/
theorem mkLoop_quality_bounds (judge : String → MKJudge)
    (matcher : String → Option MKType) (prompts : List Prompt)
    (hq : ∀ t r, judge t = MKJudge.response r → 0 ≤ r.qualityScore ∧ r.qualityScore ≤ 10) :
    ∀ en ∈ (mkLoop judge matcher prompts).1,
      0 ≤ en.qualityScore ∧ en.qualityScore ≤ 10 := by
  induction prompts with
  | nil => simp [mkLoop]
  | cons p rest ih =>
    by_cases hp : p.prompt_text.length < 10
    · simpa [mkLoop, hp] using ih
    · intro en hen
      simp only [mkLoop, if_neg hp] at hen
      by_cases hcrit : (mkAnalyzePromptWithAI judge matcher p.prompt_text).caughtMistake
      · rw [if_pos hcrit] at hen
        rcases List.mem_cons.mp hen with h1 | h1
        · rw [h1]
          show 0 ≤ (mkAnalyzePromptWithAI judge matcher p.prompt_text).qualityScore ∧ _
          unfold mkAnalyzePromptWithAI
          cases hj : judge p.prompt_text with
          | callFailure => exact mkRuleBasedAnalysis_quality_bounds matcher p.prompt_text
          | response r => exact hq _ r hj
        · exact ih en h1
      · rw [if_neg hcrit] at hen
        exact ih en hen

/-- Debugging-reasoning analogue of `ctLoop_quality_bounds`. -/
theorem drLoop_quality_bounds (judge : String → DRJudge)
    (matcher : String → Option DRType) (trialMatcher : String → Bool)
    (prompts : List Prompt)
    (hq : ∀ t r, judge t = DRJudge.response r →
      0 ≤ r.debuggingQuality ∧ r.debuggingQuality ≤ 10) :
    ∀ en ∈ (drLoop judge matcher trialMatcher prompts).1,
      0 ≤ en.qualityScore ∧ en.qualityScore ≤ 10 := by
  induction prompts with
  | nil => simp [drLoop]
  | cons p rest ih =>
    by_cases hp : p.prompt_text.length < 10
    · simpa [drLoop, hp] using ih
    · intro en hen
      simp only [drLoop, if_neg hp] at hen
      by_cases hcrit : (drAnalyzePromptWithAI judge matcher trialMatcher p.prompt_text).isSystematic
      · rw [if_pos hcrit] at hen
        rcases List.mem_cons.mp hen with h1 | h1
        · rw [h1]
          show 0 ≤ (drAnalyzePromptWithAI judge matcher trialMatcher p.prompt_text).debuggingQuality ∧ _
          unfold drAnalyzePromptWithAI
          cases hj : judge p.prompt_text with
          | callFailure => exact drRuleBasedAnalysis_quality_bounds matcher trialMatcher p.prompt_text
          | response r => exact hq _ r hj
        · exact ih en h1
      · rw [if_neg hcrit] at hen
        exact ih en hen

/-- The mean quality reported by the critical-thinking aggregation lies
in `[0, 10]`. -/
theorem ctAnalyzeAll_quality_bounds (judge : String → CTJudge)
    (matcher : String → Option CTType) (prompts : List Prompt)
    (hq : ∀ t r, judge t = CTJudge.response r → 0 ≤ r.qualityScore ∧ r.qualityScore ≤ 10) :
    0 ≤ (ctAnalyzeAllPromptsWithAI judge matcher prompts).criticalQuestions.quality ∧
      (ctAnalyzeAllPromptsWithAI judge matcher prompts).criticalQuestions.quality ≤ 10 := by
  simp only [ctAnalyzeAllPromptsWithAI]
  by_cases hl : 0 < (ctLoop judge matcher prompts).1.length
  · simp only [if_pos hl]
    have := avg_bounds_0_10 ((ctLoop judge matcher prompts).1.map (·.qualityScore))
      (by
        intro x hx
        obtain ⟨en, hen, rfl⟩ := List.mem_map.mp hx
        exact ctLoop_quality_bounds judge matcher prompts hq en hen)
      (by simpa using hl)
    simpa using this
  · simp only [if_neg hl]
    norm_num

/-- Mistake-catcher analogue of `ctAnalyzeAll_quality_bounds`. -/
theorem mkAnalyzeAll_quality_bounds (judge : String → MKJudge)
    (matcher : String → Option MKType) (prompts : List Prompt)
    (hq : ∀ t r, judge t = MKJudge.response r → 0 ≤ r.qualityScore ∧ r.qualityScore ≤ 10) :
    0 ≤ (mkAnalyzeAllPromptsWithAI judge matcher prompts).mistakesCaught.quality ∧
      (mkAnalyzeAllPromptsWithAI judge matcher prompts).mistakesCaught.quality ≤ 10 := by
  simp only [mkAnalyzeAllPromptsWithAI]
  by_cases hl : 0 < (mkLoop judge matcher prompts).1.length
  · simp only [if_pos hl]
    have := avg_bounds_0_10 ((mkLoop judge matcher prompts).1.map (·.qualityScore))
      (by
        intro x hx
        obtain ⟨en, hen, rfl⟩ := List.mem_map.mp hx
        exact mkLoop_quality_bounds judge matcher prompts hq en hen)
      (by simpa using hl)
    simpa using this
  · simp only [if_neg hl]
    norm_num

/-- Debugging-reasoning analogue of `ctAnalyzeAll_quality_bounds`. -/
theorem drAnalyzeAll_quality_bounds (judge : String → DRJudge)
    (matcher : String → Option DRType) (trialMatcher : String → Bool)
    (prompts : List Prompt)
    (hq : ∀ t r, judge t = DRJudge.response r →
      0 ≤ r.debuggingQuality ∧ r.debuggingQuality ≤ 10) :
    0 ≤ (drAnalyzeAllPromptsWithAI judge matcher trialMatcher
          prompts).systematicDebugging.quality ∧
      (drAnalyzeAllPromptsWithAI judge matcher trialMatcher
          prompts).systematicDebugging.quality ≤ 10 := by
  simp only [drAnalyzeAllPromptsWithAI]
  by_cases hl : 0 < (drLoop judge matcher trialMatcher prompts).1.length
  · simp only [if_pos hl]
    have := avg_bounds_0_10 ((drLoop judge matcher trialMatcher prompts).1.map (·.qualityScore))
      (by
        intro x hx
        obtain ⟨en, hen, rfl⟩ := List.mem_map.mp hx
        exact drLoop_quality_bounds judge matcher trialMatcher prompts hq en hen)
      (by simpa using hl)
    simpa using this
  · simp only [if_neg hl]
    norm_num

/-- Bounds of the shared analyzer score shape
`round(min(10, countScore + quality/10*4 + bonus) * 10) / 10`. -/
theorem score_shape_bounds (cs qv ds : ℚ) (hcs : 0 ≤ cs) (hqv : 0 ≤ qv) (hds : 0 ≤ ds) :
    0 ≤ jsRoundQ (min 10 (cs + qv / 10 * 4 + ds) * 10) / 10 ∧
      jsRoundQ (min 10 (cs + qv / 10 * 4 + ds) * 10) / 10 ≤ 10 := by
  have hin : (0 : ℚ) ≤ min 10 (cs + qv / 10 * 4 + ds) := by
    apply le_min (by norm_num)
    positivity
  have hax : min 10 (cs + qv / 10 * 4 + ds) ≤ 10 := min_le_left _ _
  have h1 : (0 : ℚ) ≤ jsRoundQ (min 10 (cs + qv / 10 * 4 + ds) * 10) := by
    have := le_jsRoundQ (a := 0) (q := min 10 (cs + qv / 10 * 4 + ds) * 10)
      (by push_cast; nlinarith)
    simpa using this
  have h2 : jsRoundQ (min 10 (cs + qv / 10 * 4 + ds) * 10) ≤ 100 := by
    have := jsRoundQ_le (q := min 10 (cs + qv / 10 * 4 + ds) * 10) (b := 100)
      (by push_cast; nlinarith)
    simpa using this
  constructor <;> [positivity; linarith]

/-- The critical-thinking analyzer's score lies in `[0, 10]`. -/
theorem ctScore_bounds (judge : String → CTJudge) (matcher : String → Option CTType)
    (prompts : List Prompt)
    (hq : ∀ t r, judge t = CTJudge.response r → 0 ≤ r.qualityScore ∧ r.qualityScore ≤ 10) :
    0 ≤ ctCalculateScoreFromAI (ctAnalyzeAllPromptsWithAI judge matcher prompts) ∧
      ctCalculateScoreFromAI (ctAnalyzeAllPromptsWithAI judge matcher prompts) ≤ 10 := by
  have hqual := ctAnalyzeAll_quality_bounds judge matcher prompts hq
  unfold ctCalculateScoreFromAI
  split
  · norm_num
  · apply score_shape_bounds
    · split_ifs <;> norm_num
    · exact hqual.1
    · apply le_min (by norm_num)
      positivity

/-- The mistake-catcher analyzer's score lies in `[0, 10]`. -/
theorem mkScore_bounds (judge : String → MKJudge) (matcher : String → Option MKType)
    (prompts : List Prompt)
    (hq : ∀ t r, judge t = MKJudge.response r → 0 ≤ r.qualityScore ∧ r.qualityScore ≤ 10) :
    0 ≤ mkCalculateScoreFromAI (mkAnalyzeAllPromptsWithAI judge matcher prompts) ∧
      mkCalculateScoreFromAI (mkAnalyzeAllPromptsWithAI judge matcher prompts) ≤ 10 := by
  have hqual := mkAnalyzeAll_quality_bounds judge matcher prompts hq
  unfold mkCalculateScoreFromAI
  split
  · norm_num
  · apply score_shape_bounds
    · split_ifs <;> norm_num
    · exact hqual.1
    · apply le_min (by norm_num)
      positivity

/-- The debugging-reasoning analyzer's score lies in `[0, 10]`. -/
theorem drScore_bounds (judge : String → DRJudge) (matcher : String → Option DRType)
    (trialMatcher : String → Bool) (prompts : List Prompt)
    (hq : ∀ t r, judge t = DRJudge.response r →
      0 ≤ r.debuggingQuality ∧ r.debuggingQuality ≤ 10) :
    0 ≤ drCalculateScoreFromAI (drAnalyzeAllPromptsWithAI judge matcher trialMatcher prompts) ∧
      drCalculateScoreFromAI (drAnalyzeAllPromptsWithAI judge matcher trialMatcher prompts) ≤ 10 := by
  have hqual := drAnalyzeAll_quality_bounds judge matcher trialMatcher prompts hq
  unfold drCalculateScoreFromAI
  split
  · norm_num
  · apply score_shape_bounds
    · split_ifs <;> norm_num
    · exact hqual.1
    · apply le_min (by norm_num)
      positivity

/-- Bounds of the shared analyzer confidence shape: baseline 0.3 plus
three bonuses of at most 0.3, 0.2 and 0.15, rounded to two decimals and
capped at 0.95, always lies in `[0.3, 0.95]`. -/
theorem confidence_shape_bounds (b1 b2 b3 : ℚ)
    (h1 : 0 ≤ b1) (h2 : 0 ≤ b2) (h3 : 0 ≤ b3) :
    3 / 10 ≤ min (19 / 20) (jsRoundQ ((3 / 10 + b1 + b2 + b3) * 100) / 100) ∧
      min (19 / 20) (jsRoundQ ((3 / 10 + b1 + b2 + b3) * 100) / 100) ≤ 19 / 20 := by
  constructor
  · apply le_min (by norm_num)
    have hlow : ((30 : ℤ) : ℚ) ≤ (3 / 10 + b1 + b2 + b3) * 100 := by
      push_cast
      nlinarith
    have := le_jsRoundQ hlow
    push_cast at this
    linarith
  · exact min_le_left _ _

/-- The critical-thinking confidence lies in `[0.3, 0.95]` for every
aggregate. -/
theorem ctConfidence_bounds (a : CTAIAnalysis) :
    3 / 10 ≤ ctCalculateConfidenceFromAI a ∧ ctCalculateConfidenceFromAI a ≤ 19 / 20 := by
  simp only [ctCalculateConfidenceFromAI]
  exact confidence_shape_bounds _ _ _
    (by split_ifs <;> norm_num) (by split_ifs <;> norm_num)
    (by split_ifs <;> norm_num)

/-- The mistake-catcher confidence lies in `[0.3, 0.95]` for every
aggregate. -/
theorem mkConfidence_bounds (a : MKAIAnalysis) :
    3 / 10 ≤ mkCalculateConfidenceFromAI a ∧ mkCalculateConfidenceFromAI a ≤ 19 / 20 := by
  simp only [mkCalculateConfidenceFromAI]
  exact confidence_shape_bounds _ _ _
    (by split_ifs <;> norm_num) (by split_ifs <;> norm_num)
    (by split_ifs <;> norm_num)

/-- The debugging-reasoning confidence lies in `[0.3, 0.95]` for every
aggregate. -/
theorem drConfidence_bounds (a : DRAIAnalysis) :
    3 / 10 ≤ drCalculateConfidenceFromAI a ∧ drCalculateConfidenceFromAI a ≤ 19 / 20 := by
  simp only [drCalculateConfidenceFromAI]
  exact confidence_shape_bounds _ _ _
    (by split_ifs <;> norm_num) (by split_ifs <;> norm_num)
    (by split_ifs <;> norm_num)
/-! ## The parseResponse validation of the three prompt modules

The critical-thinking and mistake-catcher prompt modules live in
`src/evaluator/prompts/mistake-catcher-prompt.js` (concatenated sources:
mistake-catcher `parseResponse` at 56–94, critical-thinking at 169–204);
the debugging-reasoning module is concatenated in
`src/evaluator/profile-generator.js` (its `parseResponse` at 473–508).
Each `parseResponse` first extracts a JSON object from the response text
and parses it; that step is abstracted as an oracle outcome (`failure`
with the reason text, or the parsed object's fields as the validation
reads them) — every response text induces exactly one outcome, so
quantifying over outcomes covers every response.  The field validation
itself is embedded below. -/

/-- A number produced by `JSON.parse`: the JSON grammar has no `NaN`
token, so a parsed number is finite or — by overflow of a large literal
such as `1e999` — one of the two infinities, never `NaN`. -/
inductive JsonNum where
  | fin : ℚ → JsonNum
  | inf : JsonNum
  | ninf : JsonNum
deriving DecidableEq, Repr

/-- The quality-score validation shared by the three modules:
`if (typeof x !== 'number' || x < 0 || x > 10) x = 0`.  `none` models a
missing field or one of the wrong JS type; `Infinity` fails `x > 10` and
`-Infinity` fails `x < 0`, so both are coerced to 0. -/
def validQuality10 : Option JsonNum → ℚ
  | none => 0
  | some (.fin q) => if q < 0 ∨ 10 < q then 0 else q
  | some .inf => 0
  | some .ninf => 0

/-- The fields of a parsed critical-thinking JSON object as the
validation of `parseResponse` reads them: `none` models an absent field
or one of the wrong JS type.  `parseErrorField` and `fallbackField` are
the truthiness of `parseError`/`fallback` members of the parsed JSON
(absent → false), which the success path passes through unchanged. -/
structure CTRaw where
  isCriticalThinking : Option Bool
  type : Option String
  qualityScore : Option JsonNum
  evidence : Option String
  reasoning : Option String
  parseErrorField : Bool
  fallbackField : Bool
deriving Repr

/-- Outcome of the JSON-extraction step of the critical-thinking
`parseResponse` (`responseText.match` of the brace-delimited block plus
`JSON.parse`): either no JSON was found / parsing threw, with the reason
text, or a parsed object read as a `CTRaw`. -/
inductive CTParseOutcome where
  | failure : String → CTParseOutcome
  | json : CTRaw → CTParseOutcome

/-- `getDefaultResponse` of the critical-thinking prompt module
(prompts/mistake-catcher-prompt.js 209–218 of the concatenated sources);
the JS object has no `fallback` member, i.e. a falsy one. -/
def ctGetDefaultResponse (reason : String) : CTParsed :=
  { isCriticalThinking := false
    type := "none"
    qualityScore := 0
    evidence := "none"
    reasoning := "Parse failed: " ++ reason
    parseError := true
    fallback := false }

/-- `parseResponse` of the critical-thinking prompt module
(prompts/mistake-catcher-prompt.js 169–204 of the concatenated sources):
coerce a non-boolean flag to `false`, an out-of-enum type to `"none"`, a
non-number or out-of-range quality score to `0`, and non-string
evidence/reasoning to their defaults. -/
def ctParseResponse : CTParseOutcome → CTParsed
  | .failure reason => ctGetDefaultResponse reason
  | .json r =>
    { isCriticalThinking := r.isCriticalThinking.getD false
      type :=
        match r.type with
        | some s =>
          if ["tradeoff", "security", "edge_case", "architecture",
              "questioning_ai", "learning", "none"].contains s then s
          else "none"
        | none => "none"
      qualityScore := validQuality10 r.qualityScore
      evidence := r.evidence.getD "none"
      reasoning := r.reasoning.getD "No reasoning provided"
      parseError := r.parseErrorField
      fallback := r.fallbackField }

/-- The per-prompt external step of the critical-thinking analyzer as
`analyzePromptWithAI` sees it: `none` models an axios error or timeout,
`some o` a returned response text whose JSON-extraction outcome is
`o`, fed through the embedded `parseResponse`. -/
def ctJudgeOfCall (call : String → Option CTParseOutcome) : String → CTJudge :=
  fun t =>
    match call t with
    | none => CTJudge.callFailure
    | some o => CTJudge.response (ctParseResponse o)

/-- Mistake-catcher analogue of `CTRaw`. -/
structure MKRaw where
  caughtMistake : Option Bool
  mistakeType : Option String
  severity : Option String
  qualityScore : Option JsonNum
  evidence : Option String
  reasoning : Option String
  parseErrorField : Bool
  fallbackField : Bool
deriving Repr

/-- Outcome of the JSON-extraction step of the mistake-catcher
`parseResponse`. -/
inductive MKParseOutcome where
  | failure : String → MKParseOutcome
  | json : MKRaw → MKParseOutcome

/-- `getDefaultResponse` of the mistake-catcher prompt module
(prompts/mistake-catcher-prompt.js 99–109). -/
def mkGetDefaultResponse (reason : String) : MKParsed :=
  { caughtMistake := false
    mistakeType := "none"
    severity := "none"
    qualityScore := 0
    evidence := "none"
    reasoning := "Parse failed: " ++ reason
    parseError := true
    fallback := false }

/-- `parseResponse` of the mistake-catcher prompt module
(prompts/mistake-catcher-prompt.js 56–94). -/
def mkParseResponse : MKParseOutcome → MKParsed
  | .failure reason => mkGetDefaultResponse reason
  | .json r =>
    { caughtMistake := r.caughtMistake.getD false
      mistakeType :=
        match r.mistakeType with
        | some s =>
          if ["security", "bug", "logic", "edge_case", "prevention",
              "none"].contains s then s
          else "none"
        | none => "none"
      severity :=
        match r.severity with
        | some s =>
          if ["high", "medium", "low", "none"].contains s then s else "none"
        | none => "none"
      qualityScore := validQuality10 r.qualityScore
      evidence := r.evidence.getD "none"
      reasoning := r.reasoning.getD "No reasoning provided"
      parseError := r.parseErrorField
      fallback := r.fallbackField }

/-- Mistake-catcher analogue of `ctJudgeOfCall`. -/
def mkJudgeOfCall (call : String → Option MKParseOutcome) : String → MKJudge :=
  fun t =>
    match call t with
    | none => MKJudge.callFailure
    | some o => MKJudge.response (mkParseResponse o)

/-- Debugging-reasoning analogue of `CTRaw`. -/
structure DRRaw where
  isSystematic : Option Bool
  type : Option String
  debuggingQuality : Option JsonNum
  evidence : Option String
  reasoning : Option String
  parseErrorField : Bool
  fallbackField : Bool
deriving Repr

/-- Outcome of the JSON-extraction step of the debugging-reasoning
`parseResponse`. -/
inductive DRParseOutcome where
  | failure : String → DRParseOutcome
  | json : DRRaw → DRParseOutcome

/-- `getDefaultResponse` of the debugging-reasoning prompt module
(profile-generator.js 513–522). -/
def drGetDefaultResponse (reason : String) : DRParsed :=
  { isSystematic := false
    type := "helpless"
    debuggingQuality := 0
    evidence := "none"
    reasoning := "Parse failed: " ++ reason
    parseError := true
    fallback := false }

/-- `parseResponse` of the debugging-reasoning prompt module
(profile-generator.js 473–508); note the out-of-enum type default is
`"helpless"` here. -/
def drParseResponse : DRParseOutcome → DRParsed
  | .failure reason => drGetDefaultResponse reason
  | .json r =>
    { isSystematic := r.isSystematic.getD false
      type :=
        match r.type with
        | some s =>
          if ["hypothesis", "testing", "root_cause", "narrowing",
              "trial_error", "helpless"].contains s then s
          else "helpless"
        | none => "helpless"
      debuggingQuality := validQuality10 r.debuggingQuality
      evidence := r.evidence.getD "none"
      reasoning := r.reasoning.getD "No reasoning provided"
      parseError := r.parseErrorField
      fallback := r.fallbackField }

/-- Debugging-reasoning analogue of `ctJudgeOfCall`. -/
def drJudgeOfCall (call : String → Option DRParseOutcome) : String → DRJudge :=
  fun t =>
    match call t with
    | none => DRJudge.callFailure
    | some o => DRJudge.response (drParseResponse o)

/-- The shared quality validation always lands in `[0, 10]`. -/
theorem validQuality10_bounds (o : Option JsonNum) :
    0 ≤ validQuality10 o ∧ validQuality10 o ≤ 10 := by
  match o with
  | none => constructor <;> norm_num [validQuality10]
  | some (.fin q) =>
    simp only [validQuality10]
    split_ifs with h
    · norm_num
    · push_neg at h
      exact ⟨h.1, h.2⟩
  | some .inf => constructor <;> norm_num [validQuality10]
  | some .ninf => constructor <;> norm_num [validQuality10]

/-- Every record the critical-thinking `parseResponse` can produce
carries a quality score in `[0, 10]`. -/
theorem ctParseResponse_quality_bounds (o : CTParseOutcome) :
    0 ≤ (ctParseResponse o).qualityScore ∧ (ctParseResponse o).qualityScore ≤ 10 := by
  cases o with
  | failure reason => constructor <;> norm_num [ctParseResponse, ctGetDefaultResponse]
  | json r => simpa [ctParseResponse] using validQuality10_bounds r.qualityScore

/-- Every record the mistake-catcher `parseResponse` can produce carries
a quality score in `[0, 10]`. -/
theorem mkParseResponse_quality_bounds (o : MKParseOutcome) :
    0 ≤ (mkParseResponse o).qualityScore ∧ (mkParseResponse o).qualityScore ≤ 10 := by
  cases o with
  | failure reason => constructor <;> norm_num [mkParseResponse, mkGetDefaultResponse]
  | json r => simpa [mkParseResponse] using validQuality10_bounds r.qualityScore

/-- Every record the debugging-reasoning `parseResponse` can produce
carries a debugging quality in `[0, 10]`. -/
theorem drParseResponse_quality_bounds (o : DRParseOutcome) :
    0 ≤ (drParseResponse o).debuggingQuality ∧ (drParseResponse o).debuggingQuality ≤ 10 := by
  cases o with
  | failure reason => constructor <;> norm_num [drParseResponse, drGetDefaultResponse]
  | json r => simpa [drParseResponse] using validQuality10_bounds r.debuggingQuality

/-- Every parsed response of the lifted critical-thinking oracle
satisfies the quality contract the loop lemmas assume. -/
theorem ctJudgeOfCall_quality (call : String → Option CTParseOutcome) :
    ∀ t r, ctJudgeOfCall call t = CTJudge.response r →
      0 ≤ r.qualityScore ∧ r.qualityScore ≤ 10 := by
  intro t r h
  unfold ctJudgeOfCall at h
  cases hc : call t with
  | none => rw [hc] at h; exact CTJudge.noConfusion h
  | some o =>
    rw [hc] at h
    injection h with h'
    rw [← h']
    exact ctParseResponse_quality_bounds o

/-- Mistake-catcher analogue of `ctJudgeOfCall_quality`. -/
theorem mkJudgeOfCall_quality (call : String → Option MKParseOutcome) :
    ∀ t r, mkJudgeOfCall call t = MKJudge.response r →
      0 ≤ r.qualityScore ∧ r.qualityScore ≤ 10 := by
  intro t r h
  unfold mkJudgeOfCall at h
  cases hc : call t with
  | none => rw [hc] at h; exact MKJudge.noConfusion h
  | some o =>
    rw [hc] at h
    injection h with h'
    rw [← h']
    exact mkParseResponse_quality_bounds o

/-- Debugging-reasoning analogue of `ctJudgeOfCall_quality`. -/
theorem drJudgeOfCall_quality (call : String → Option DRParseOutcome) :
    ∀ t r, drJudgeOfCall call t = DRJudge.response r →
      0 ≤ r.debuggingQuality ∧ r.debuggingQuality ≤ 10 := by
  intro t r h
  unfold drJudgeOfCall at h
  cases hc : call t with
  | none => rw [hc] at h; exact DRJudge.noConfusion h
  | some o =>
    rw [hc] at h
    injection h with h'
    rw [← h']
    exact drParseResponse_quality_bounds o

/-- Claim C6: every sub-score and the overall score of
`calculateDeveloperScore` lies in `[0, 100]` for every input; every
understanding analyzer's returned score lies in `[0, 10]` for every
external behaviour — any pattern of call failures, unparseable responses
and parsed JSON objects, routed through each module's embedded
`parseResponse` validation, which coerces an out-of-range quality score
to 0; and every returned confidence lies in `[0, 0.95]`. -/
theorem scores_and_confidences_in_range :
    (∀ data : ScoreInput,
      (0 ≤ (calculateDeveloperScore data).prompt_quality ∧
        (calculateDeveloperScore data).prompt_quality ≤ 100) ∧
      (0 ≤ (calculateDeveloperScore data).self_sufficiency ∧
        (calculateDeveloperScore data).self_sufficiency ≤ 100) ∧
      (0 ≤ (calculateDeveloperScore data).technical_depth ∧
        (calculateDeveloperScore data).technical_depth ≤ 100) ∧
      (0 ≤ (calculateDeveloperScore data).code_coherence ∧
        (calculateDeveloperScore data).code_coherence ≤ 100) ∧
      (0 ≤ (calculateDeveloperScore data).understanding ∧
        (calculateDeveloperScore data).understanding ≤ 100) ∧
      (0 ≤ (calculateDeveloperScore data).overall ∧
        (calculateDeveloperScore data).overall ≤ 100)) ∧
    (∀ (call : String → Option CTParseOutcome) (matcher : String → Option CTType)
        (prompts : List Prompt),
      (0 ≤ (ctAnalyze (ctJudgeOfCall call) matcher prompts).score ∧
        (ctAnalyze (ctJudgeOfCall call) matcher prompts).score ≤ 10) ∧
      (0 ≤ (ctAnalyze (ctJudgeOfCall call) matcher prompts).confidence ∧
        (ctAnalyze (ctJudgeOfCall call) matcher prompts).confidence ≤ 19 / 20)) ∧
    (∀ (call : String → Option MKParseOutcome) (matcher : String → Option MKType)
        (prompts : List Prompt),
      (0 ≤ (mkAnalyze (mkJudgeOfCall call) matcher prompts).score ∧
        (mkAnalyze (mkJudgeOfCall call) matcher prompts).score ≤ 10) ∧
      (∀ c, (mkAnalyze (mkJudgeOfCall call) matcher prompts).confidence = some c →
        0 ≤ c ∧ c ≤ 19 / 20)) ∧
    (∀ (call : String → Option DRParseOutcome) (matcher : String → Option DRType)
        (trialMatcher : String → Bool) (prompts : List Prompt),
      (0 ≤ (drAnalyze (drJudgeOfCall call) matcher trialMatcher prompts).score ∧
        (drAnalyze (drJudgeOfCall call) matcher trialMatcher prompts).score ≤ 10) ∧
      (∀ c, (drAnalyze (drJudgeOfCall call) matcher trialMatcher prompts).confidence = some c →
        0 ≤ c ∧ c ≤ 19 / 20)) := by
  refine ⟨?_, ?_, ?_, ?_⟩
  · intro data
    have h1 := scorePromptQuality_bounds data.semanticAnalyses
    have h2 := scoreSelfSufficiency_bounds data.correlations
    have h3 := scoreTechnicalDepth_bounds data.semanticAnalyses data.positivePatterns
    have h4 := scoreCodeCoherence_bounds data.patternAnalysis
    have h5 := scoreUnderstanding_bounds data.antiPatterns data.positivePatterns
      data.patternAnalysis
    simp only [calculateDeveloperScore]
    refine ⟨h1, h2, h3, h4, h5, ?_, ?_⟩
    · have := le_jsRoundQ (a := 0)
        (q := scorePromptQuality data.semanticAnalyses * (2 / 10) +
          scoreSelfSufficiency data.correlations * (2 / 10) +
          scoreTechnicalDepth data.semanticAnalyses data.positivePatterns * (2 / 10) +
          scoreCodeCoherence data.patternAnalysis * (2 / 10) +
          scoreUnderstanding data.antiPatterns data.positivePatterns
            data.patternAnalysis * (2 / 10))
        (by push_cast; nlinarith [h1.1, h2.1, h3.1, h4.1, h5.1])
      simpa using this
    · have := jsRoundQ_le (b := 100)
        (q := scorePromptQuality data.semanticAnalyses * (2 / 10) +
          scoreSelfSufficiency data.correlations * (2 / 10) +
          scoreTechnicalDepth data.semanticAnalyses data.positivePatterns * (2 / 10) +
          scoreCodeCoherence data.patternAnalysis * (2 / 10) +
          scoreUnderstanding data.antiPatterns data.positivePatterns
            data.patternAnalysis * (2 / 10))
        (by push_cast; nlinarith [h1.2, h2.2, h3.2, h4.2, h5.2])
      simpa using this
  · intro call matcher prompts
    by_cases hlen : prompts.length = 0
    · simp only [ctAnalyze, if_pos hlen]
      norm_num
    · simp only [ctAnalyze, if_neg hlen]
      refine ⟨ctScore_bounds (ctJudgeOfCall call) matcher prompts
        (ctJudgeOfCall_quality call), ?_, ?_⟩
      · have := (ctConfidence_bounds
          (ctAnalyzeAllPromptsWithAI (ctJudgeOfCall call) matcher prompts)).1
        linarith
      · exact (ctConfidence_bounds
          (ctAnalyzeAllPromptsWithAI (ctJudgeOfCall call) matcher prompts)).2
  · intro call matcher prompts
    by_cases hlen : prompts.length = 0
    · simp only [mkAnalyze, if_pos hlen]
      exact ⟨by norm_num, fun c hc => Option.noConfusion hc⟩
    · simp only [mkAnalyze, if_neg hlen]
      refine ⟨mkScore_bounds (mkJudgeOfCall call) matcher prompts
        (mkJudgeOfCall_quality call), ?_⟩
      intro c hc
      have hc' : mkCalculateConfidenceFromAI
          (mkAnalyzeAllPromptsWithAI (mkJudgeOfCall call) matcher prompts) = c := by
        simpa using hc
      have := mkConfidence_bounds
        (mkAnalyzeAllPromptsWithAI (mkJudgeOfCall call) matcher prompts)
      rw [hc'] at this
      exact ⟨by linarith [this.1], this.2⟩
  · intro call matcher trialMatcher prompts
    by_cases hlen : prompts.length = 0
    · simp only [drAnalyze, if_pos hlen]
      exact ⟨by norm_num, fun c hc => Option.noConfusion hc⟩
    · simp only [drAnalyze, if_neg hlen]
      refine ⟨drScore_bounds (drJudgeOfCall call) matcher trialMatcher _
        (drJudgeOfCall_quality call), ?_⟩
      intro c hc
      have hc' : drCalculateConfidenceFromAI (drAnalyzeAllPromptsWithAI (drJudgeOfCall call)
          matcher trialMatcher (if 0 < (prompts.filter (·.is_debugging)).length then
            prompts.filter (·.is_debugging) else prompts)) = c := by
        simpa using hc
      have := drConfidence_bounds (drAnalyzeAllPromptsWithAI (drJudgeOfCall call)
        matcher trialMatcher (if 0 < (prompts.filter (·.is_debugging)).length then
          prompts.filter (·.is_debugging) else prompts))
      rw [hc'] at this
      exact ⟨by linarith [this.1], this.2⟩

/-- An empty scoring input. -/
def emptyScoreInput : ScoreInput :=
  { semanticAnalyses := []
    correlations := []
    patternAnalysis := none
    antiPatterns := []
    positivePatterns := [] }

/-- Witness for C6 at concrete inputs: empty scoring data, and a
one-prompt conversation whose external calls all fail, where the
mistake-catcher and debugging-reasoning confidences evaluate to
`some (9/20)` so the conditional confidence bounds apply. -/
theorem scores_and_confidences_in_range_witness :
    (0 ≤ (calculateDeveloperScore emptyScoreInput).overall ∧
      (calculateDeveloperScore emptyScoreInput).overall ≤ 100) ∧
    (0 ≤ (ctAnalyze (ctJudgeOfCall (fun _ => none)) (fun _ => none) [failPrompt]).score ∧
      (ctAnalyze (ctJudgeOfCall (fun _ => none)) (fun _ => none) [failPrompt]).score ≤ 10) ∧
    ((mkAnalyze (mkJudgeOfCall (fun _ => none)) (fun _ => none)
        [failPrompt]).confidence = some (9 / 20) ∧
      0 ≤ (9 / 20 : ℚ) ∧ (9 / 20 : ℚ) ≤ 19 / 20) ∧
    ((drAnalyze (drJudgeOfCall (fun _ => none)) (fun _ => none) (fun _ => false)
        [failPrompt]).confidence = some (9 / 20) ∧
      0 ≤ (9 / 20 : ℚ) ∧ (9 / 20 : ℚ) ≤ 19 / 20) := by
  have hlong : ¬(failPrompt.prompt_text.length < 10) := by decide
  have hmk : (mkAnalyze (mkJudgeOfCall (fun _ => none)) (fun _ => none)
      [failPrompt]).confidence = some (9 / 20) := by
    simp only [mkAnalyze, mkAnalyzeAllPromptsWithAI, mkLoop, mkAnalyzePromptWithAI,
      mkJudgeOfCall, mkRuleBasedAnalysis, mkCalculateConfidenceFromAI, mkBreakdown,
      lookupCount, hlong]
    norm_num [jsRoundQ, jsRound, lookupCount]
  have hdr : (drAnalyze (drJudgeOfCall (fun _ => none)) (fun _ => none) (fun _ => false)
      [failPrompt]).confidence = some (9 / 20) := by
    simp only [drAnalyze, drAnalyzeAllPromptsWithAI, drLoop, drAnalyzePromptWithAI,
      drJudgeOfCall, drRuleBasedAnalysis, drCalculateConfidenceFromAI, mkBreakdown,
      hlong]
    norm_num [jsRoundQ, jsRound, List.filter, failPrompt]
  refine ⟨scores_and_confidences_in_range.1 emptyScoreInput |>.2.2.2.2.2, ?_, ?_, ?_⟩
  · exact (scores_and_confidences_in_range.2.1 (fun _ => none)
      (fun _ => none) [failPrompt]).1
  · exact ⟨hmk, (scores_and_confidences_in_range.2.2.1 (fun _ => none)
      (fun _ => none) [failPrompt]).2 (9 / 20) hmk⟩
  · exact ⟨hdr, (scores_and_confidences_in_range.2.2.2 (fun _ => none)
      (fun _ => none) (fun _ => false) [failPrompt]).2 (9 / 20) hdr⟩

/-- Claim C9: for every conversation with at least one prompt, each
understanding analyzer's returned confidence is at least the 0.3
baseline (the bonuses are all non-negative), even when zero relevant
prompts are found. -/
theorem analyzers_confidence_at_least_baseline :
    (∀ (judge : String → CTJudge) (matcher : String → Option CTType)
        (prompts : List Prompt), prompts ≠ [] →
      3 / 10 ≤ (ctAnalyze judge matcher prompts).confidence) ∧
    (∀ (judge : String → MKJudge) (matcher : String → Option MKType)
        (prompts : List Prompt), prompts ≠ [] →
      ∃ c, (mkAnalyze judge matcher prompts).confidence = some c ∧ 3 / 10 ≤ c) ∧
    (∀ (judge : String → DRJudge) (matcher : String → Option DRType)
        (trialMatcher : String → Bool) (prompts : List Prompt), prompts ≠ [] →
      ∃ c, (drAnalyze judge matcher trialMatcher prompts).confidence = some c ∧ 3 / 10 ≤ c) := by
  refine ⟨?_, ?_, ?_⟩
  · intro judge matcher prompts hne
    have hlen : ¬(prompts.length = 0) := by
      simpa [List.length_eq_zero] using hne
    simp only [ctAnalyze, if_neg hlen]
    exact (ctConfidence_bounds _).1
  · intro judge matcher prompts hne
    have hlen : ¬(prompts.length = 0) := by
      simpa [List.length_eq_zero] using hne
    simp only [mkAnalyze, if_neg hlen]
    exact ⟨_, rfl, (mkConfidence_bounds _).1⟩
  · intro judge matcher trialMatcher prompts hne
    have hlen : ¬(prompts.length = 0) := by
      simpa [List.length_eq_zero] using hne
    simp only [drAnalyze, if_neg hlen]
    exact ⟨_, rfl, (drConfidence_bounds _).1⟩

/-- Witness for C9 at a concrete one-prompt conversation. -/
theorem analyzers_confidence_at_least_baseline_witness :
    3 / 10 ≤ (ctAnalyze (fun _ => CTJudge.callFailure) (fun _ => none)
        [failPrompt]).confidence ∧
    (∃ c, (mkAnalyze (fun _ => MKJudge.callFailure) (fun _ => none)
        [failPrompt]).confidence = some c ∧ 3 / 10 ≤ c) ∧
    (∃ c, (drAnalyze (fun _ => DRJudge.callFailure) (fun _ => none) (fun _ => false)
        [failPrompt]).confidence = some c ∧ 3 / 10 ≤ c) :=
  ⟨analyzers_confidence_at_least_baseline.1 (fun _ => CTJudge.callFailure)
      (fun _ => none) [failPrompt] (by simp),
    analyzers_confidence_at_least_baseline.2.1 (fun _ => MKJudge.callFailure)
      (fun _ => none) [failPrompt] (by simp),
    analyzers_confidence_at_least_baseline.2.2 (fun _ => DRJudge.callFailure)
      (fun _ => none) (fun _ => false) [failPrompt] (by simp)⟩
